import Mathlib

/-!
LiveTraffic, `Src/SettingsUI.cpp`

A shallow embedding of the settings window of the LiveTraffic plugin:

* the date-time text field `LTCapDateTime` with its `std::regex` based parser,
* the widget index enumeration `UI_WIDGET_IDX_T` and the widget definition
  array `SETTINGS_UI`,
* the message handlers of `LTSettingsUI`.

Strings are lists of characters.  Calls into the widget toolkit, the dataRefs
and the base class are recorded, in program order, as a list of `Call`s.
-/

namespace LiveTraffic

/-! ## `std::regex`: the part of the ECMAScript grammar the source uses -/

/-- Abstract syntax of a regular expression. -/
inductive Regex where
  /-- The assertion `^`. -/
  | bol : Regex
  /-- A literal character. -/
  | chr : Char → Regex
  /-- The class escape `\d`. -/
  | digit : Regex
  /-- The empty expression. -/
  | eps : Regex
  /-- Concatenation. -/
  | seq : Regex → Regex → Regex
  /-- The greedy quantifier `?`. -/
  | opt : Regex → Regex
  /-- A capturing group `( ... )` with its number (counted by opening parenthesis). -/
  | group : Nat → Regex → Regex
  deriving DecidableEq

/-- The greedy bounded quantifier `r{lo,hi}`, unrolled: `lo` mandatory copies
followed by `hi - lo` nested optional ones. -/
def Regex.rep (r : Regex) : Nat → Nat → Regex
  | _, 0 => Regex.eps
  | 0, hi + 1 => Regex.opt (Regex.seq r (Regex.rep r 0 hi))
  | lo + 1, hi + 1 => Regex.seq r (Regex.rep r lo hi)

/-- Number of capturing groups of an expression (`std::regex::mark_count`). -/
def Regex.mark_count : Regex → Nat
  | Regex.seq a b => a.mark_count + b.mark_count
  | Regex.opt r => r.mark_count
  | Regex.group _ r => r.mark_count + 1
  | _ => 0

/-- A sub-match: `none` when the group did not take part in the match
(`matched == false`), else the matched characters. -/
abbrev ssub_match := Option (List Char)

/-- The match results `std::smatch`: entry 0 is the whole match, entry `i` is
group `i`; it is empty when nothing matched. -/
abbrev smatch := List ssub_match

/-- A state of the backtracking matcher: the number of characters before the
current position, the characters from the current position on, and the
groups captured so far. -/
structure MatchState where
  pos : Nat
  rest : List Char
  caps : smatch
  deriving DecidableEq

/-- All ways of matching an expression from a state, in the order in which the
backtracking matcher of `std::regex` tries them (greedy alternatives first). -/
def Regex.run : Regex → MatchState → List MatchState
  | Regex.bol, s => if s.pos = 0 then [s] else []
  | Regex.chr c, s =>
    match s.rest with
    | x :: xs => if x = c then [⟨s.pos + 1, xs, s.caps⟩] else []
    | [] => []
  | Regex.digit, s =>
    match s.rest with
    | x :: xs => if x.isDigit then [⟨s.pos + 1, xs, s.caps⟩] else []
    | [] => []
  | Regex.eps, s => [s]
  | Regex.seq a b, s => (a.run s).flatMap (fun t => b.run t)
  | Regex.opt r, s => r.run s ++ [s]
  | Regex.group i r, s =>
    (r.run s).map (fun t => ⟨t.pos, t.rest, t.caps.set i (some (s.rest.take (t.pos - s.pos)))⟩)

/-- All matches of `re` that start at offset `i` of `text`. -/
def matchesAt (re : Regex) (text : List Char) (i : Nat) : List smatch :=
  (re.run ⟨i, text.drop i, List.replicate (re.mark_count + 1) none⟩).map
    (fun t => t.caps.set 0 (some ((text.drop i).take (t.pos - i))))

/-- The call `std::regex_search(text, m, re)`: the first match at the leftmost
offset at which there is one, as the resulting `m`; `m` is empty when the
expression matches nowhere. -/
def regex_search (text : List Char) (re : Regex) : smatch :=
  ((List.range (text.length + 1)).flatMap (matchesAt re text)).headD []

/-- The call `m[i].matched`. -/
def smatch.matched (m : smatch) (i : Nat) : Bool := (m.getD i none).isSome

/-- The string a sub-match converts to (`m[i].str()`); empty when not matched. -/
def smatch.str (m : smatch) (i : Nat) : List Char := (m.getD i none).getD []

/-! ## `std::stoi` -/

/-- The largest `int`. -/
def INT_MAX : Int := 2147483647

/-- The smallest `int`. -/
def INT_MIN : Int := -2147483648

/-- The white space `std::stoi` skips (`isspace` in the "C" locale). -/
def isspace (c : Char) : Bool :=
  c = ' ' || c = '\t' || c = '\n' || c = '\x0b' || c = '\x0c' || c = '\r'

/-- Value of a string of decimal digits. -/
def digitsValue (ds : List Char) : Nat :=
  ds.foldl (fun acc c => 10 * acc + (c.toNat - '0'.toNat)) 0

/-- The call `std::stoi(s)` in base 10: leading white space, an optional sign,
then the longest run of digits; `none` stands for the exception it throws
when there is no digit (`invalid_argument`) or the value does not fit an
`int` (`out_of_range`). -/
def stoi (s : List Char) : Option Int :=
  let s1 := s.dropWhile isspace
  let neg := s1.head? = some '-'
  let s2 := if s1.head? = some '-' ∨ s1.head? = some '+' then s1.tail else s1
  let ds := s2.takeWhile Char.isDigit
  let v : Int := if neg then -(digitsValue ds : Int) else (digitsValue ds : Int)
  if ds = [] then none
  else if v < INT_MIN ∨ INT_MAX < v then none
  else some v

/-! ## `LTCapDateTime` -/

/-- Widget handles of the toolkit. -/
abbrev XPWidgetID := Nat

/-- The broken-down time `struct tm`. -/
structure tm where
  tm_sec : Int
  tm_min : Int
  tm_hour : Int
  tm_mday : Int
  tm_mon : Int
  tm_year : Int
  tm_wday : Int
  tm_yday : Int
  tm_isdst : Int
  deriving DecidableEq

/-- Index of group `((\d{4})-)`. -/
def D_YMIN : Nat := 1
/-- Index of the year group. -/
def D_Y : Nat := 2
/-- Index of the month group. -/
def D_M : Nat := 3
/-- Index of the day group. -/
def D_D : Nat := 4
/-- Index of the hour group. -/
def T_H : Nat := 5
/-- Index of the minute group. -/
def T_M : Nat := 6
/-- Index of group `(:(\d{1,2}))`. -/
def T_SCOL : Nat := 7
/-- Index of the second group. -/
def T_S : Nat := 8
/-- Number of sub-matches of a successful match. -/
def DT_EXPECTED : Nat := 9

/-- The expression
`^((\d{4})-)?(\d{1,2})-(\d{1,2}) (\d{1,2}):(\d{1,2})(:(\d{1,2}))?`. -/
def re : Regex :=
  .seq .bol <|
  .seq (.opt (.group 1 (.seq (.group 2 (Regex.rep .digit 4 4)) (.chr '-')))) <|
  .seq (.group 3 (Regex.rep .digit 1 2)) <|
  .seq (.chr '-') <|
  .seq (.group 4 (Regex.rep .digit 1 2)) <|
  .seq (.chr ' ') <|
  .seq (.group 5 (Regex.rep .digit 1 2)) <|
  .seq (.chr ':') <|
  .seq (.group 6 (Regex.rep .digit 1 2)) <|
  .opt (.group 7 (.seq (.chr ':') (.group 8 (Regex.rep .digit 1 2))))

/-- The six numbers read from the text field. -/
structure DateTime where
  yyyy : Int
  mm : Int
  dd : Int
  HH : Int
  MM : Int
  SS : Int
  deriving DecidableEq

/-- Lines 72-85: the numbers of a successful match `m`, the year defaulting
to the current year and the second to 0; `none` when `std::stoi` throws. -/
def readFields (now : tm) (m : smatch) : Option DateTime := do
  let yyyy ← if m.matched D_Y then stoi (m.str D_Y) else pure (now.tm_year + 1900)
  let mm ← stoi (m.str D_M)
  let dd ← stoi (m.str D_D)
  let HH ← stoi (m.str T_H)
  let MM ← stoi (m.str T_M)
  let SS ← if m.matched T_S then stoi (m.str T_S) else pure 0
  pure ⟨yyyy, mm, dd, HH, MM, SS⟩

/-- Lines 88-93: the range check. -/
def validValues (v : DateTime) : Bool :=
  decide (2000 ≤ v.yyyy) && decide (v.yyyy < 2999) &&
  decide (1 ≤ v.mm) && decide (v.mm ≤ 12) &&
  decide (1 ≤ v.dd) && decide (v.dd ≤ 31) &&
  decide (0 ≤ v.HH) && decide (v.HH ≤ 23) &&
  decide (0 ≤ v.MM) && decide (v.MM ≤ 59) &&
  decide (0 ≤ v.SS) && decide (v.SS ≤ 59)

/-- What the two dataRef objects `simDate` and `simTime` answer: whether each
is already valid, and whether binding it by name succeeds. -/
structure DataRefEnv where
  simDateValid : Bool
  simDateBinds : Bool
  simTimeValid : Bool
  simTimeBinds : Bool
  deriving DecidableEq

/-- Calls the date-time field makes, in program order. -/
inductive Call where
  /-- The call `simDate.setDataRef(DATA_REFS_LT[DR_SIM_DATE])`. -/
  | simDateSetDataRef : Call
  /-- The call `simDate.Set(v)`. -/
  | simDateSet : Int → Call
  /-- The call `simTime.setDataRef(DATA_REFS_LT[DR_SIM_TIME])`. -/
  | simTimeSetDataRef : Call
  /-- The call `simTime.Set(v)`. -/
  | simTimeSet : Int → Call
  /-- The call `SetKeyboardFocus()`. -/
  | SetKeyboardFocus : Call
  deriving DecidableEq

/-- Lines 97-99: `if (simDate.isValid() || simDate.setDataRef(..)) simDate.Set(v)`. -/
def sendDate (env : DataRefEnv) (v : Int) : List Call :=
  if env.simDateValid then [Call.simDateSet v]
  else Call.simDateSetDataRef :: (if env.simDateBinds then [Call.simDateSet v] else [])

/-- Lines 100-102: `if (simTime.isValid() || simTime.setDataRef(..)) simTime.Set(v)`. -/
def sendTime (env : DataRefEnv) (v : Int) : List Call :=
  if env.simTimeValid then [Call.simTimeSet v]
  else Call.simTimeSetDataRef :: (if env.simTimeBinds then [Call.simTimeSet v] else [])

/-- Lines 62-104: the value of `bOK` and the calls made up to line 104. -/
def interpret (env : DataRefEnv) (now : tm) (text : List Char) : Option (Bool × List Call) :=
  let m := regex_search text re
  let n := m.length
  if n = DT_EXPECTED then do
    let v ← readFields now m
    if validValues v then
      pure (true, sendDate env (v.yyyy * 10000 + v.mm * 100 + v.dd) ++
                  sendTime env (v.HH * 10000 + v.MM * 100 + v.SS))
    else pure (false, [])
  else pure (false, [])

/-- The handler `LTCapDateTime::MsgTextFieldChanged` of the widget `self`:
its return value and the calls it makes; `none` when an exception leaves it. -/
def LTCapDateTime.MsgTextFieldChanged (self : XPWidgetID) (env : DataRefEnv) (now : tm)
    (textWidget : XPWidgetID) (text : List Char) : Option (Bool × List Call) :=
  if textWidget ≠ self then pure (false, [])
  else do
    let (bOK, calls) ← interpret env now text
    if !bOK then pure (true, calls ++ [Call.SetKeyboardFocus])
    else pure (true, calls)


/-! ## The date-time format `[YYYY-][M]M-[D]D [H]H:[M]M[:[S]S]` in words -/

/-- A string of exactly `n` decimal digits. -/
def isDigits (n : Nat) (ds : List Char) : Bool :=
  ds.length == n && ds.all Char.isDigit

/-- A string of one or two decimal digits. -/
def isDigits12 (ds : List Char) : Bool :=
  isDigits 1 ds || isDigits 2 ds

/-- The parts a date-time text is written from: the year and the second may
be left out. -/
structure DTParts where
  year : Option (List Char)
  month : List Char
  day : List Char
  hour : List Char
  minute : List Char
  second : Option (List Char)
  deriving DecidableEq

/-- The parts are well formed: a 4-digit year, the others of 1-2 digits. -/
def DTParts.wf (p : DTParts) : Bool :=
  (match p.year with
    | some y => isDigits 4 y
    | none => true) &&
  isDigits12 p.month && isDigits12 p.day && isDigits12 p.hour && isDigits12 p.minute &&
  (match p.second with
    | some s => isDigits12 s
    | none => true)

/-- The part `YYYY-` as written, empty when the year is left out. -/
def yearText (year : Option (List Char)) : List Char :=
  match year with
  | some y => y ++ ['-']
  | none => []

/-- The part `:SS` as written, empty when the second is left out. -/
def secondText (second : Option (List Char)) : List Char :=
  match second with
  | some s => ':' :: s
  | none => []

/-- The text written from the parts. -/
def DTParts.text (p : DTParts) : List Char :=
  yearText p.year ++ p.month ++ '-' :: p.day ++ ' ' :: p.hour ++ ':' :: p.minute ++
    secondText p.second

/-- A text has the form `[YYYY-][M]M-[D]D [H]H:[M]M[:[S]S]` as a whole. -/
def dateTimeForm (t : List Char) : Prop :=
  ∃ p : DTParts, p.wf = true ∧ t = p.text

/-- The numbers the parts denote, the year defaulting to `year0` and the
second to 0. -/
def DTParts.values (p : DTParts) (year0 : Int) : DateTime :=
  { yyyy := match p.year with
      | some y => (digitsValue y : Int)
      | none => year0
    mm := digitsValue p.month
    dd := digitsValue p.day
    HH := digitsValue p.hour
    MM := digitsValue p.minute
    SS := match p.second with
      | some s => (digitsValue s : Int)
      | none => 0 }

/-- The match results that capture exactly the parts. -/
def DTParts.toSmatch (p : DTParts) : smatch :=
  [some p.text,
   p.year.map (fun y => y ++ ['-']), p.year,
   some p.month, some p.day, some p.hour, some p.minute,
   p.second.map (fun s => ':' :: s), p.second]

/-- The groups the matcher records for the year, on top of `c`. -/
def capYear (year : Option (List Char)) (c : smatch) : smatch :=
  match year with
  | some y => (c.set 2 (some y)).set 1 (some (y ++ ['-']))
  | none => c

/-- The groups the matcher records for the second, on top of `c`. -/
def capSecond (second : Option (List Char)) (c : smatch) : smatch :=
  match second with
  | some s => (c.set 8 (some s)).set 7 (some (':' :: s))
  | none => c

/-- The groups the matcher records for the parts, on top of `c`. -/
def DTParts.captures (p : DTParts) (c : smatch) : smatch :=
  capSecond p.second
    (List.set (List.set (List.set (List.set (capYear p.year c) 3 (some p.month)) 4 (some p.day))
      5 (some p.hour)) 6 (some p.minute))

/-- The text begins with a decimal digit. -/
def startsWithDigit : List Char → Bool
  | c :: _ => c.isDigit
  | [] => false

/-- The text begins with `:` and a decimal digit. -/
def startsWithSecond : List Char → Bool
  | c :: d :: _ => c == ':' && d.isDigit
  | _ => false

/-- The minute and second take as much of the text as the format allows:
`rest`, which follows them, could not be read as a further digit of the last
number nor as a second. -/
def maximalFor (minute : List Char) (second : Option (List Char)) (rest : List Char) : Bool :=
  match second with
  | some s => s.length == 2 || !startsWithDigit rest
  | none => (minute.length == 2 || !startsWithDigit rest) && !startsWithSecond rest

/-- The parts take as much of `p.text ++ rest` as the format allows. -/
def DTParts.maximal (p : DTParts) (rest : List Char) : Bool :=
  maximalFor p.minute p.second rest

/-- A one-digit number takes the digit that follows it, if there is one. -/
def extendDigits (ds rest : List Char) : List Char × List Char :=
  if ds.length == 1 && startsWithDigit rest then (ds ++ rest.take 1, rest.drop 1) else (ds, rest)

/-- The parts of the longest reading of `p.text ++ rest`, and what is left
over: the last number takes a further digit, and a second that follows a
text without one is read. -/
def DTParts.extend (p : DTParts) (rest : List Char) : DTParts × List Char :=
  match p.second with
  | some s => (⟨p.year, p.month, p.day, p.hour, p.minute, some (extendDigits s rest).1⟩,
      (extendDigits s rest).2)
  | none =>
    let r1 := (extendDigits p.minute rest).2
    if startsWithSecond r1 then
      (⟨p.year, p.month, p.day, p.hour, (extendDigits p.minute rest).1,
          some (extendDigits ((r1.drop 1).take 1) (r1.drop 2)).1⟩,
        (extendDigits ((r1.drop 1).take 1) (r1.drop 2)).2)
    else (⟨p.year, p.month, p.day, p.hour, (extendDigits p.minute rest).1, none⟩, r1)

/-- The numbers a match gives: the decimal values of its sub-matches, the year
being the given year or else the current year (`tm_year + 1900`), the second
the given second or else 0. -/
def givenValues (now : tm) (m : smatch) : DateTime :=
  { yyyy := if m.matched D_Y then (digitsValue (m.str D_Y) : Int) else now.tm_year + 1900
    mm := digitsValue (m.str D_M)
    dd := digitsValue (m.str D_D)
    HH := digitsValue (m.str T_H)
    MM := digitsValue (m.str T_M)
    SS := if m.matched T_S then (digitsValue (m.str T_S) : Int) else 0 }

/-- The ranges of a date and time: the day is at most 31 in every month. -/
def inRange (v : DateTime) : Prop :=
  2000 ≤ v.yyyy ∧ v.yyyy < 2999 ∧ 1 ≤ v.mm ∧ v.mm ≤ 12 ∧ 1 ≤ v.dd ∧ v.dd ≤ 31 ∧
    0 ≤ v.HH ∧ v.HH ≤ 23 ∧ 0 ≤ v.MM ∧ v.MM ≤ 59 ∧ 0 ≤ v.SS ∧ v.SS ≤ 59

instance (v : DateTime) : Decidable (inRange v) := by
  unfold inRange
  infer_instance

/-- The text can be interpreted: the pattern matches and the values are in range. -/
def interpretable (now : tm) (text : List Char) : Prop :=
  (regex_search text re).length = DT_EXPECTED ∧
    inRange (givenValues now (regex_search text re))

instance (now : tm) (text : List Char) : Decidable (interpretable now text) := by
  unfold interpretable
  infer_instance

/-- The date-time field accepts a text: the handler, called for its own
widget, returns without asking for the keyboard focus. -/
def accepts (self : XPWidgetID) (env : DataRefEnv) (now : tm) (text : List Char) : Bool :=
  match LTCapDateTime.MsgTextFieldChanged self env now self text with
  | some (_, calls) => !calls.contains Call.SetKeyboardFocus
  | none => false

/-! ## The widget index enumeration and the widget definition array -/

/-- The enumerators of `enum UI_WIDGET_IDX_T`, in the order of declaration.
The first has the value 0 and no other is given a value, so that each has the
value of its position. -/
def UI_WIDGET_IDX_T : List String :=
  ["UI_MAIN_WND",
   "UI_BTN_BASICS",
   "UI_BTN_AC_LABELS",
   "UI_BTN_ADVANCED",
   "UI_BTN_CSL",
   "UI_BASICS_LIVE_SUB_WND",
   "UI_BASICS_BTN_ENABLE",
   "UI_BASICS_BTN_AUTO_START",
   "UI_BASICS_CAP_FDCHANNELS",
   "UI_BASICS_BTN_OPENSKY_LIVE",
   "UI_BASICS_BTN_OPENSKY_MASTERDATA",
   "UI_BASICS_BTN_ADSB_LIVE",
   "UI_BASICS_CAP_VERSION_TXT",
   "UI_BASICS_CAP_VERSION",
   "UI_BASICS_HISTORIC_SUB_WND",
   "UI_BASICS_BTN_HISTORIC",
   "UI_BASICS_CAP_DATETIME",
   "UI_BASICS_TXT_DATETIME",
   "UI_BASICS_CAP_HISTORICCHANNELS",
   "UI_BASICS_BTN_ADSB_HISTORIC",
   "UI_BASICS_CAP_DBG_LIMIT",
   "UI_LABELS_SUB_WND",
   "UI_LABELS_CAP_STATIC",
   "UI_LABELS_BTN_TYPE",
   "UI_LABELS_BTN_AC_ID",
   "UI_LABELS_BTN_TRANSP",
   "UI_LABELS_BTN_REG",
   "UI_LABELS_BTN_OP",
   "UI_LABELS_BTN_CALL_SIGN",
   "UI_LABELS_BTN_FLIGHT_NO",
   "UI_LABELS_BTN_ROUTE",
   "UI_LABELS_CAP_DYNAMIC",
   "UI_LABELS_BTN_PHASE",
   "UI_LABELS_BTN_HEADING",
   "UI_LABELS_BTN_ALT",
   "UI_LABELS_BTN_HEIGHT",
   "UI_LABELS_BTN_SPEED",
   "UI_LABELS_BTN_VSI",
   "UI_LABELS_CAP_COLOR",
   "UI_LABELS_BTN_DYNAMIC",
   "UI_LABELS_BTN_FIXED",
   "UI_LABELS_TXT_COLOR",
   "UI_LABELS_BTN_YELLOW",
   "UI_LABELS_BTN_RED",
   "UI_LABELS_BTN_GREEN",
   "UI_LABELS_BTN_BLUE",
   "UI_ADVCD_SUB_WND",
   "UI_ADVCD_CAP_LOGLEVEL",
   "UI_ADVCD_BTN_LOG_FATAL",
   "UI_ADVCD_BTN_LOG_ERROR",
   "UI_ADVCD_BTN_LOG_WARNING",
   "UI_ADVCD_BTN_LOG_INFO",
   "UI_ADVCD_BTN_LOG_DEBUG",
   "UI_ADVCD_CAP_MAX_NUM_AC",
   "UI_ADVCD_INT_MAX_NUM_AC",
   "UI_ADVCD_CAP_MAX_FULL_NUM_AC",
   "UI_ADVCD_INT_MAX_FULL_NUM_AC",
   "UI_ADVCD_CAP_FULL_DISTANCE",
   "UI_ADVCD_INT_FULL_DISTANCE",
   "UI_ADVCD_CAP_FD_STD_DISTANCE",
   "UI_ADVCD_INT_FD_STD_DISTANCE",
   "UI_ADVCD_CAP_FD_REFRESH_INTVL",
   "UI_ADVCD_INT_FD_REFRESH_INTVL",
   "UI_ADVCD_CAP_FD_BUF_PERIOD",
   "UI_ADVCD_INT_FD_BUF_PERIOD",
   "UI_ADVCD_CAP_AC_OUTDATED_INTVL",
   "UI_ADVCD_INT_AC_OUTDATED_INTVL",
   "UI_ADVCD_CAP_FILTER",
   "UI_ADVCD_TXT_FILTER",
   "UI_ADVCD_BTN_LOG_ACPOS",
   "UI_ADVCD_BTN_LOG_MODELMATCH",
   "UI_ADVCD_BTN_LOG_RAW_FD",
   "UI_CSL_SUB_WND",
   "UI_CSL_CAP_PATHS",
   "UI_CSL_BTN_ENABLE_1",
   "UI_CSL_TXT_PATH_1",
   "UI_CSL_BTN_LOAD_1",
   "UI_CSL_BTN_ENABLE_2",
   "UI_CSL_TXT_PATH_2",
   "UI_CSL_BTN_LOAD_2",
   "UI_CSL_BTN_ENABLE_3",
   "UI_CSL_TXT_PATH_3",
   "UI_CSL_BTN_LOAD_3",
   "UI_CSL_BTN_ENABLE_4",
   "UI_CSL_TXT_PATH_4",
   "UI_CSL_BTN_LOAD_4",
   "UI_CSL_BTN_ENABLE_5",
   "UI_CSL_TXT_PATH_5",
   "UI_CSL_BTN_LOAD_5",
   "UI_CSL_BTN_ENABLE_6",
   "UI_CSL_TXT_PATH_6",
   "UI_CSL_BTN_LOAD_6",
   "UI_CSL_BTN_ENABLE_7",
   "UI_CSL_TXT_PATH_7",
   "UI_CSL_BTN_LOAD_7",
   "UI_CSL_CAP_DEFAULT_AC_TYPE",
   "UI_CSL_TXT_DEFAULT_AC_TYPE",
   "UI_CSL_CAP_GROUND_VEHICLE_TYPE",
   "UI_CSL_TXT_GROUND_VEHICLE_TYPE",
   "UI_NUMBER_OF_ELEMENTS"]

/-- The value of an enumerator of `UI_WIDGET_IDX_T`. -/
def enumerator (name : String) : Nat := UI_WIDGET_IDX_T.indexOf name

def UI_MAIN_WND : Nat := enumerator "UI_MAIN_WND"
def UI_BTN_BASICS : Nat := enumerator "UI_BTN_BASICS"
def UI_BTN_AC_LABELS : Nat := enumerator "UI_BTN_AC_LABELS"
def UI_BTN_ADVANCED : Nat := enumerator "UI_BTN_ADVANCED"
def UI_BTN_CSL : Nat := enumerator "UI_BTN_CSL"
def UI_BASICS_LIVE_SUB_WND : Nat := enumerator "UI_BASICS_LIVE_SUB_WND"
def UI_BASICS_BTN_ENABLE : Nat := enumerator "UI_BASICS_BTN_ENABLE"
def UI_BASICS_BTN_AUTO_START : Nat := enumerator "UI_BASICS_BTN_AUTO_START"
def UI_BASICS_CAP_FDCHANNELS : Nat := enumerator "UI_BASICS_CAP_FDCHANNELS"
def UI_BASICS_BTN_OPENSKY_LIVE : Nat := enumerator "UI_BASICS_BTN_OPENSKY_LIVE"
def UI_BASICS_BTN_OPENSKY_MASTERDATA : Nat := enumerator "UI_BASICS_BTN_OPENSKY_MASTERDATA"
def UI_BASICS_BTN_ADSB_LIVE : Nat := enumerator "UI_BASICS_BTN_ADSB_LIVE"
def UI_BASICS_CAP_VERSION_TXT : Nat := enumerator "UI_BASICS_CAP_VERSION_TXT"
def UI_BASICS_CAP_VERSION : Nat := enumerator "UI_BASICS_CAP_VERSION"
def UI_BASICS_HISTORIC_SUB_WND : Nat := enumerator "UI_BASICS_HISTORIC_SUB_WND"
def UI_BASICS_BTN_HISTORIC : Nat := enumerator "UI_BASICS_BTN_HISTORIC"
def UI_BASICS_CAP_DATETIME : Nat := enumerator "UI_BASICS_CAP_DATETIME"
def UI_BASICS_TXT_DATETIME : Nat := enumerator "UI_BASICS_TXT_DATETIME"
def UI_BASICS_CAP_HISTORICCHANNELS : Nat := enumerator "UI_BASICS_CAP_HISTORICCHANNELS"
def UI_BASICS_BTN_ADSB_HISTORIC : Nat := enumerator "UI_BASICS_BTN_ADSB_HISTORIC"
def UI_BASICS_CAP_DBG_LIMIT : Nat := enumerator "UI_BASICS_CAP_DBG_LIMIT"
def UI_LABELS_SUB_WND : Nat := enumerator "UI_LABELS_SUB_WND"
def UI_LABELS_CAP_STATIC : Nat := enumerator "UI_LABELS_CAP_STATIC"
def UI_LABELS_BTN_TYPE : Nat := enumerator "UI_LABELS_BTN_TYPE"
def UI_LABELS_BTN_AC_ID : Nat := enumerator "UI_LABELS_BTN_AC_ID"
def UI_LABELS_BTN_TRANSP : Nat := enumerator "UI_LABELS_BTN_TRANSP"
def UI_LABELS_BTN_REG : Nat := enumerator "UI_LABELS_BTN_REG"
def UI_LABELS_BTN_OP : Nat := enumerator "UI_LABELS_BTN_OP"
def UI_LABELS_BTN_CALL_SIGN : Nat := enumerator "UI_LABELS_BTN_CALL_SIGN"
def UI_LABELS_BTN_FLIGHT_NO : Nat := enumerator "UI_LABELS_BTN_FLIGHT_NO"
def UI_LABELS_BTN_ROUTE : Nat := enumerator "UI_LABELS_BTN_ROUTE"
def UI_LABELS_CAP_DYNAMIC : Nat := enumerator "UI_LABELS_CAP_DYNAMIC"
def UI_LABELS_BTN_PHASE : Nat := enumerator "UI_LABELS_BTN_PHASE"
def UI_LABELS_BTN_HEADING : Nat := enumerator "UI_LABELS_BTN_HEADING"
def UI_LABELS_BTN_ALT : Nat := enumerator "UI_LABELS_BTN_ALT"
def UI_LABELS_BTN_HEIGHT : Nat := enumerator "UI_LABELS_BTN_HEIGHT"
def UI_LABELS_BTN_SPEED : Nat := enumerator "UI_LABELS_BTN_SPEED"
def UI_LABELS_BTN_VSI : Nat := enumerator "UI_LABELS_BTN_VSI"
def UI_LABELS_CAP_COLOR : Nat := enumerator "UI_LABELS_CAP_COLOR"
def UI_LABELS_BTN_DYNAMIC : Nat := enumerator "UI_LABELS_BTN_DYNAMIC"
def UI_LABELS_BTN_FIXED : Nat := enumerator "UI_LABELS_BTN_FIXED"
def UI_LABELS_TXT_COLOR : Nat := enumerator "UI_LABELS_TXT_COLOR"
def UI_LABELS_BTN_YELLOW : Nat := enumerator "UI_LABELS_BTN_YELLOW"
def UI_LABELS_BTN_RED : Nat := enumerator "UI_LABELS_BTN_RED"
def UI_LABELS_BTN_GREEN : Nat := enumerator "UI_LABELS_BTN_GREEN"
def UI_LABELS_BTN_BLUE : Nat := enumerator "UI_LABELS_BTN_BLUE"
def UI_ADVCD_SUB_WND : Nat := enumerator "UI_ADVCD_SUB_WND"
def UI_ADVCD_CAP_LOGLEVEL : Nat := enumerator "UI_ADVCD_CAP_LOGLEVEL"
def UI_ADVCD_BTN_LOG_FATAL : Nat := enumerator "UI_ADVCD_BTN_LOG_FATAL"
def UI_ADVCD_BTN_LOG_ERROR : Nat := enumerator "UI_ADVCD_BTN_LOG_ERROR"
def UI_ADVCD_BTN_LOG_WARNING : Nat := enumerator "UI_ADVCD_BTN_LOG_WARNING"
def UI_ADVCD_BTN_LOG_INFO : Nat := enumerator "UI_ADVCD_BTN_LOG_INFO"
def UI_ADVCD_BTN_LOG_DEBUG : Nat := enumerator "UI_ADVCD_BTN_LOG_DEBUG"
def UI_ADVCD_CAP_MAX_NUM_AC : Nat := enumerator "UI_ADVCD_CAP_MAX_NUM_AC"
def UI_ADVCD_INT_MAX_NUM_AC : Nat := enumerator "UI_ADVCD_INT_MAX_NUM_AC"
def UI_ADVCD_CAP_MAX_FULL_NUM_AC : Nat := enumerator "UI_ADVCD_CAP_MAX_FULL_NUM_AC"
def UI_ADVCD_INT_MAX_FULL_NUM_AC : Nat := enumerator "UI_ADVCD_INT_MAX_FULL_NUM_AC"
def UI_ADVCD_CAP_FULL_DISTANCE : Nat := enumerator "UI_ADVCD_CAP_FULL_DISTANCE"
def UI_ADVCD_INT_FULL_DISTANCE : Nat := enumerator "UI_ADVCD_INT_FULL_DISTANCE"
def UI_ADVCD_CAP_FD_STD_DISTANCE : Nat := enumerator "UI_ADVCD_CAP_FD_STD_DISTANCE"
def UI_ADVCD_INT_FD_STD_DISTANCE : Nat := enumerator "UI_ADVCD_INT_FD_STD_DISTANCE"
def UI_ADVCD_CAP_FD_REFRESH_INTVL : Nat := enumerator "UI_ADVCD_CAP_FD_REFRESH_INTVL"
def UI_ADVCD_INT_FD_REFRESH_INTVL : Nat := enumerator "UI_ADVCD_INT_FD_REFRESH_INTVL"
def UI_ADVCD_CAP_FD_BUF_PERIOD : Nat := enumerator "UI_ADVCD_CAP_FD_BUF_PERIOD"
def UI_ADVCD_INT_FD_BUF_PERIOD : Nat := enumerator "UI_ADVCD_INT_FD_BUF_PERIOD"
def UI_ADVCD_CAP_AC_OUTDATED_INTVL : Nat := enumerator "UI_ADVCD_CAP_AC_OUTDATED_INTVL"
def UI_ADVCD_INT_AC_OUTDATED_INTVL : Nat := enumerator "UI_ADVCD_INT_AC_OUTDATED_INTVL"
def UI_ADVCD_CAP_FILTER : Nat := enumerator "UI_ADVCD_CAP_FILTER"
def UI_ADVCD_TXT_FILTER : Nat := enumerator "UI_ADVCD_TXT_FILTER"
def UI_ADVCD_BTN_LOG_ACPOS : Nat := enumerator "UI_ADVCD_BTN_LOG_ACPOS"
def UI_ADVCD_BTN_LOG_MODELMATCH : Nat := enumerator "UI_ADVCD_BTN_LOG_MODELMATCH"
def UI_ADVCD_BTN_LOG_RAW_FD : Nat := enumerator "UI_ADVCD_BTN_LOG_RAW_FD"
def UI_CSL_SUB_WND : Nat := enumerator "UI_CSL_SUB_WND"
def UI_CSL_CAP_PATHS : Nat := enumerator "UI_CSL_CAP_PATHS"
def UI_CSL_BTN_ENABLE_1 : Nat := enumerator "UI_CSL_BTN_ENABLE_1"
def UI_CSL_TXT_PATH_1 : Nat := enumerator "UI_CSL_TXT_PATH_1"
def UI_CSL_BTN_LOAD_1 : Nat := enumerator "UI_CSL_BTN_LOAD_1"
def UI_CSL_BTN_ENABLE_2 : Nat := enumerator "UI_CSL_BTN_ENABLE_2"
def UI_CSL_TXT_PATH_2 : Nat := enumerator "UI_CSL_TXT_PATH_2"
def UI_CSL_BTN_LOAD_2 : Nat := enumerator "UI_CSL_BTN_LOAD_2"
def UI_CSL_BTN_ENABLE_3 : Nat := enumerator "UI_CSL_BTN_ENABLE_3"
def UI_CSL_TXT_PATH_3 : Nat := enumerator "UI_CSL_TXT_PATH_3"
def UI_CSL_BTN_LOAD_3 : Nat := enumerator "UI_CSL_BTN_LOAD_3"
def UI_CSL_BTN_ENABLE_4 : Nat := enumerator "UI_CSL_BTN_ENABLE_4"
def UI_CSL_TXT_PATH_4 : Nat := enumerator "UI_CSL_TXT_PATH_4"
def UI_CSL_BTN_LOAD_4 : Nat := enumerator "UI_CSL_BTN_LOAD_4"
def UI_CSL_BTN_ENABLE_5 : Nat := enumerator "UI_CSL_BTN_ENABLE_5"
def UI_CSL_TXT_PATH_5 : Nat := enumerator "UI_CSL_TXT_PATH_5"
def UI_CSL_BTN_LOAD_5 : Nat := enumerator "UI_CSL_BTN_LOAD_5"
def UI_CSL_BTN_ENABLE_6 : Nat := enumerator "UI_CSL_BTN_ENABLE_6"
def UI_CSL_TXT_PATH_6 : Nat := enumerator "UI_CSL_TXT_PATH_6"
def UI_CSL_BTN_LOAD_6 : Nat := enumerator "UI_CSL_BTN_LOAD_6"
def UI_CSL_BTN_ENABLE_7 : Nat := enumerator "UI_CSL_BTN_ENABLE_7"
def UI_CSL_TXT_PATH_7 : Nat := enumerator "UI_CSL_TXT_PATH_7"
def UI_CSL_BTN_LOAD_7 : Nat := enumerator "UI_CSL_BTN_LOAD_7"
def UI_CSL_CAP_DEFAULT_AC_TYPE : Nat := enumerator "UI_CSL_CAP_DEFAULT_AC_TYPE"
def UI_CSL_TXT_DEFAULT_AC_TYPE : Nat := enumerator "UI_CSL_TXT_DEFAULT_AC_TYPE"
def UI_CSL_CAP_GROUND_VEHICLE_TYPE : Nat := enumerator "UI_CSL_CAP_GROUND_VEHICLE_TYPE"
def UI_CSL_TXT_GROUND_VEHICLE_TYPE : Nat := enumerator "UI_CSL_TXT_GROUND_VEHICLE_TYPE"
def UI_NUMBER_OF_ELEMENTS : Nat := enumerator "UI_NUMBER_OF_ELEMENTS"

/-- The widget classes of the toolkit used in the array. -/
inductive XPWidgetClass where
  | xpWidgetClass_MainWindow
  | xpWidgetClass_SubWindow
  | xpWidgetClass_Button
  | xpWidgetClass_TextField
  | xpWidgetClass_Caption
  deriving DecidableEq

open XPWidgetClass

/-- A property id or property value of a definition, by the name the source
uses, or a number. -/
inductive XPProp where
  | num : Int → XPProp
  | xpProperty_MainWindowHasCloseBoxes
  | xpProperty_MainWindowType
  | xpMainWindowStyle_Translucent
  | xpProperty_ButtonType
  | xpProperty_ButtonBehavior
  | xpProperty_MaxCharacters
  | xpPushButton
  | xpRadioButton
  | xpButtonBehaviorPushButton
  | xpButtonBehaviorCheckBox
  | xpButtonBehaviorRadioButton
  deriving DecidableEq

open XPProp

/-- The container index of a widget without parent (`NO_PARENT` of the widget SDK). -/
def NO_PARENT : Int := -1

/-- One widget definition: position and size, visibility, caption, root flag,
index of the parent in the array, widget class, and three pairs of property
id and value. -/
structure TFWidgetCreate_t where
  left : Int
  top : Int
  right : Int
  bottom : Int
  visible : Int
  descriptor : String
  isRoot : Int
  containerIndex : Int
  widgetClass : XPWidgetClass
  props : List XPProp
  deriving DecidableEq

/-- The widget definition array `SETTINGS_UI[]`. -/
def SETTINGS_UI : List TFWidgetCreate_t :=
  [TFWidgetCreate_t.mk 0 0 400 330 0 "LiveTraffic Settings" 1 NO_PARENT xpWidgetClass_MainWindow
     [xpProperty_MainWindowHasCloseBoxes, num 1, xpProperty_MainWindowType, xpMainWindowStyle_Translucent, num 0, num 0],
   TFWidgetCreate_t.mk 10 30 75 10 1 "Basics" 0 UI_MAIN_WND xpWidgetClass_Button
     [xpProperty_ButtonBehavior, xpButtonBehaviorRadioButton, num 0, num 0, num 0, num 0],
   TFWidgetCreate_t.mk 85 30 75 10 1 "A/C Labels" 0 UI_MAIN_WND xpWidgetClass_Button
     [xpProperty_ButtonBehavior, xpButtonBehaviorRadioButton, num 0, num 0, num 0, num 0],
   TFWidgetCreate_t.mk 160 30 75 10 1 "Advanced" 0 UI_MAIN_WND xpWidgetClass_Button
     [xpProperty_ButtonBehavior, xpButtonBehaviorRadioButton, num 0, num 0, num 0, num 0],
   TFWidgetCreate_t.mk 235 30 75 10 1 "CSL" 0 UI_MAIN_WND xpWidgetClass_Button
     [xpProperty_ButtonBehavior, xpButtonBehaviorRadioButton, num 0, num 0, num 0, num 0],
   TFWidgetCreate_t.mk 10 50 190 (-10) 0 "Basics Live" 0 UI_MAIN_WND xpWidgetClass_SubWindow
     [num 0, num 0, num 0, num 0, num 0, num 0],
   TFWidgetCreate_t.mk 10 10 10 10 1 "Show Live Aircrafts" 0 UI_BASICS_LIVE_SUB_WND xpWidgetClass_Button
     [xpProperty_ButtonType, xpRadioButton, xpProperty_ButtonBehavior, xpButtonBehaviorCheckBox, num 0, num 0],
   TFWidgetCreate_t.mk 10 25 10 10 1 "Auto Start" 0 UI_BASICS_LIVE_SUB_WND xpWidgetClass_Button
     [xpProperty_ButtonType, xpRadioButton, xpProperty_ButtonBehavior, xpButtonBehaviorCheckBox, num 0, num 0],
   TFWidgetCreate_t.mk 5 50 (-5) 10 1 "Flight Data Channels:" 0 UI_BASICS_LIVE_SUB_WND xpWidgetClass_Caption
     [num 0, num 0, num 0, num 0, num 0, num 0],
   TFWidgetCreate_t.mk 10 70 10 10 1 "OpenSky Network Live" 0 UI_BASICS_LIVE_SUB_WND xpWidgetClass_Button
     [xpProperty_ButtonType, xpRadioButton, xpProperty_ButtonBehavior, xpButtonBehaviorCheckBox, num 0, num 0],
   TFWidgetCreate_t.mk 10 85 10 10 1 "OpenSky Network Master Data" 0 UI_BASICS_LIVE_SUB_WND xpWidgetClass_Button
     [xpProperty_ButtonType, xpRadioButton, xpProperty_ButtonBehavior, xpButtonBehaviorCheckBox, num 0, num 0],
   TFWidgetCreate_t.mk 10 105 10 10 1 "ADS-B Exchange Live" 0 UI_BASICS_LIVE_SUB_WND xpWidgetClass_Button
     [xpProperty_ButtonType, xpRadioButton, xpProperty_ButtonBehavior, xpButtonBehaviorCheckBox, num 0, num 0],
   TFWidgetCreate_t.mk 5 (-15) (-5) 10 1 "Version" 0 UI_BASICS_LIVE_SUB_WND xpWidgetClass_Caption
     [num 0, num 0, num 0, num 0, num 0, num 0],
   TFWidgetCreate_t.mk 50 (-15) (-5) 10 1 "" 0 UI_BASICS_LIVE_SUB_WND xpWidgetClass_Caption
     [num 0, num 0, num 0, num 0, num 0, num 0],
   TFWidgetCreate_t.mk 200 50 (-10) (-10) 0 "Basics Historic" 0 UI_MAIN_WND xpWidgetClass_SubWindow
     [num 0, num 0, num 0, num 0, num 0, num 0],
   TFWidgetCreate_t.mk 10 10 10 10 1 "Use Historic Data" 0 UI_BASICS_HISTORIC_SUB_WND xpWidgetClass_Button
     [xpProperty_ButtonType, xpRadioButton, xpProperty_ButtonBehavior, xpButtonBehaviorCheckBox, num 0, num 0],
   TFWidgetCreate_t.mk 5 30 50 10 1 "Time:" 0 UI_BASICS_HISTORIC_SUB_WND xpWidgetClass_Caption
     [num 0, num 0, num 0, num 0, num 0, num 0],
   TFWidgetCreate_t.mk (-140) 30 130 15 1 "" 0 UI_BASICS_HISTORIC_SUB_WND xpWidgetClass_TextField
     [xpProperty_MaxCharacters, num 19, num 0, num 0, num 0, num 0],
   TFWidgetCreate_t.mk 5 50 (-10) 10 1 "Historic Channels:" 0 UI_BASICS_HISTORIC_SUB_WND xpWidgetClass_Caption
     [num 0, num 0, num 0, num 0, num 0, num 0],
   TFWidgetCreate_t.mk 10 105 10 10 1 "ADS-B Exchange Historic" 0 UI_BASICS_HISTORIC_SUB_WND xpWidgetClass_Button
     [xpProperty_ButtonType, xpRadioButton, xpProperty_ButtonBehavior, xpButtonBehaviorCheckBox, num 0, num 0],
   TFWidgetCreate_t.mk 5 (-15) (-5) 10 1 "" 0 UI_BASICS_HISTORIC_SUB_WND xpWidgetClass_Caption
     [num 0, num 0, num 0, num 0, num 0, num 0],
   TFWidgetCreate_t.mk 10 50 (-10) (-10) 0 "A/C Label" 0 UI_MAIN_WND xpWidgetClass_SubWindow
     [num 0, num 0, num 0, num 0, num 0, num 0],
   TFWidgetCreate_t.mk 5 10 190 10 1 "Static info:" 0 UI_LABELS_SUB_WND xpWidgetClass_Caption
     [num 0, num 0, num 0, num 0, num 0, num 0],
   TFWidgetCreate_t.mk 10 30 10 10 1 "ICAO A/C Type Code" 0 UI_LABELS_SUB_WND xpWidgetClass_Button
     [xpProperty_ButtonType, xpRadioButton, xpProperty_ButtonBehavior, xpButtonBehaviorCheckBox, num 0, num 0],
   TFWidgetCreate_t.mk 10 45 10 10 1 "Any A/C ID" 0 UI_LABELS_SUB_WND xpWidgetClass_Button
     [xpProperty_ButtonType, xpRadioButton, xpProperty_ButtonBehavior, xpButtonBehaviorCheckBox, num 0, num 0],
   TFWidgetCreate_t.mk 10 60 10 10 1 "Transponder Hex Code" 0 UI_LABELS_SUB_WND xpWidgetClass_Button
     [xpProperty_ButtonType, xpRadioButton, xpProperty_ButtonBehavior, xpButtonBehaviorCheckBox, num 0, num 0],
   TFWidgetCreate_t.mk 10 75 10 10 1 "Registration" 0 UI_LABELS_SUB_WND xpWidgetClass_Button
     [xpProperty_ButtonType, xpRadioButton, xpProperty_ButtonBehavior, xpButtonBehaviorCheckBox, num 0, num 0],
   TFWidgetCreate_t.mk 10 90 10 10 1 "ICAO Operator Code" 0 UI_LABELS_SUB_WND xpWidgetClass_Button
     [xpProperty_ButtonType, xpRadioButton, xpProperty_ButtonBehavior, xpButtonBehaviorCheckBox, num 0, num 0],
   TFWidgetCreate_t.mk 10 105 10 10 1 "Call Sign" 0 UI_LABELS_SUB_WND xpWidgetClass_Button
     [xpProperty_ButtonType, xpRadioButton, xpProperty_ButtonBehavior, xpButtonBehaviorCheckBox, num 0, num 0],
   TFWidgetCreate_t.mk 10 120 10 10 1 "Flight Number (rare)" 0 UI_LABELS_SUB_WND xpWidgetClass_Button
     [xpProperty_ButtonType, xpRadioButton, xpProperty_ButtonBehavior, xpButtonBehaviorCheckBox, num 0, num 0],
   TFWidgetCreate_t.mk 10 135 10 10 1 "Route" 0 UI_LABELS_SUB_WND xpWidgetClass_Button
     [xpProperty_ButtonType, xpRadioButton, xpProperty_ButtonBehavior, xpButtonBehaviorCheckBox, num 0, num 0],
   TFWidgetCreate_t.mk 200 10 (-10) 10 1 "Dynamic data:" 0 UI_LABELS_SUB_WND xpWidgetClass_Caption
     [num 0, num 0, num 0, num 0, num 0, num 0],
   TFWidgetCreate_t.mk 200 30 10 10 1 "Flight Phase" 0 UI_LABELS_SUB_WND xpWidgetClass_Button
     [xpProperty_ButtonType, xpRadioButton, xpProperty_ButtonBehavior, xpButtonBehaviorCheckBox, num 0, num 0],
   TFWidgetCreate_t.mk 200 45 10 10 1 "Heading" 0 UI_LABELS_SUB_WND xpWidgetClass_Button
     [xpProperty_ButtonType, xpRadioButton, xpProperty_ButtonBehavior, xpButtonBehaviorCheckBox, num 0, num 0],
   TFWidgetCreate_t.mk 200 60 10 10 1 "Altitude [ft]" 0 UI_LABELS_SUB_WND xpWidgetClass_Button
     [xpProperty_ButtonType, xpRadioButton, xpProperty_ButtonBehavior, xpButtonBehaviorCheckBox, num 0, num 0],
   TFWidgetCreate_t.mk 200 75 10 10 1 "Height AGL [ft]" 0 UI_LABELS_SUB_WND xpWidgetClass_Button
     [xpProperty_ButtonType, xpRadioButton, xpProperty_ButtonBehavior, xpButtonBehaviorCheckBox, num 0, num 0],
   TFWidgetCreate_t.mk 200 90 10 10 1 "Speed [kn]" 0 UI_LABELS_SUB_WND xpWidgetClass_Button
     [xpProperty_ButtonType, xpRadioButton, xpProperty_ButtonBehavior, xpButtonBehaviorCheckBox, num 0, num 0],
   TFWidgetCreate_t.mk 200 105 10 10 1 "VSI [ft/min]" 0 UI_LABELS_SUB_WND xpWidgetClass_Button
     [xpProperty_ButtonType, xpRadioButton, xpProperty_ButtonBehavior, xpButtonBehaviorCheckBox, num 0, num 0],
   TFWidgetCreate_t.mk 5 155 50 10 1 "Label Color:" 0 UI_LABELS_SUB_WND xpWidgetClass_Caption
     [num 0, num 0, num 0, num 0, num 0, num 0],
   TFWidgetCreate_t.mk 10 170 10 10 1 "Dynamic by Flight Model" 0 UI_LABELS_SUB_WND xpWidgetClass_Button
     [xpProperty_ButtonType, xpRadioButton, xpProperty_ButtonBehavior, xpButtonBehaviorRadioButton, num 0, num 0],
   TFWidgetCreate_t.mk 10 185 10 10 1 "Fixed:" 0 UI_LABELS_SUB_WND xpWidgetClass_Button
     [xpProperty_ButtonType, xpRadioButton, xpProperty_ButtonBehavior, xpButtonBehaviorRadioButton, num 0, num 0],
   TFWidgetCreate_t.mk 60 182 60 15 1 "" 0 UI_LABELS_SUB_WND xpWidgetClass_TextField
     [xpProperty_MaxCharacters, num 6, num 0, num 0, num 0, num 0],
   TFWidgetCreate_t.mk 120 185 50 10 1 "Yellow" 0 UI_LABELS_SUB_WND xpWidgetClass_Button
     [xpProperty_ButtonType, xpPushButton, xpProperty_ButtonBehavior, xpButtonBehaviorPushButton, num 0, num 0],
   TFWidgetCreate_t.mk 170 185 50 10 1 "Red" 0 UI_LABELS_SUB_WND xpWidgetClass_Button
     [xpProperty_ButtonType, xpPushButton, xpProperty_ButtonBehavior, xpButtonBehaviorPushButton, num 0, num 0],
   TFWidgetCreate_t.mk 220 185 50 10 1 "Green" 0 UI_LABELS_SUB_WND xpWidgetClass_Button
     [xpProperty_ButtonType, xpPushButton, xpProperty_ButtonBehavior, xpButtonBehaviorPushButton, num 0, num 0],
   TFWidgetCreate_t.mk 270 185 50 10 1 "Blue" 0 UI_LABELS_SUB_WND xpWidgetClass_Button
     [xpProperty_ButtonType, xpPushButton, xpProperty_ButtonBehavior, xpButtonBehaviorPushButton, num 0, num 0],
   TFWidgetCreate_t.mk 10 50 (-10) (-10) 0 "Advanced" 0 UI_MAIN_WND xpWidgetClass_SubWindow
     [num 0, num 0, num 0, num 0, num 0, num 0],
   TFWidgetCreate_t.mk 5 10 (-5) 10 1 "Logging Level:" 0 UI_ADVCD_SUB_WND xpWidgetClass_Caption
     [num 0, num 0, num 0, num 0, num 0, num 0],
   TFWidgetCreate_t.mk 10 30 10 10 1 "Fatal" 0 UI_ADVCD_SUB_WND xpWidgetClass_Button
     [xpProperty_ButtonType, xpRadioButton, xpProperty_ButtonBehavior, xpButtonBehaviorRadioButton, num 0, num 0],
   TFWidgetCreate_t.mk 80 30 10 10 1 "Error" 0 UI_ADVCD_SUB_WND xpWidgetClass_Button
     [xpProperty_ButtonType, xpRadioButton, xpProperty_ButtonBehavior, xpButtonBehaviorRadioButton, num 0, num 0],
   TFWidgetCreate_t.mk 150 30 10 10 1 "Warning" 0 UI_ADVCD_SUB_WND xpWidgetClass_Button
     [xpProperty_ButtonType, xpRadioButton, xpProperty_ButtonBehavior, xpButtonBehaviorRadioButton, num 0, num 0],
   TFWidgetCreate_t.mk 220 30 10 10 1 "Info" 0 UI_ADVCD_SUB_WND xpWidgetClass_Button
     [xpProperty_ButtonType, xpRadioButton, xpProperty_ButtonBehavior, xpButtonBehaviorRadioButton, num 0, num 0],
   TFWidgetCreate_t.mk 290 30 10 10 1 "Debug" 0 UI_ADVCD_SUB_WND xpWidgetClass_Button
     [xpProperty_ButtonType, xpRadioButton, xpProperty_ButtonBehavior, xpButtonBehaviorRadioButton, num 0, num 0],
   TFWidgetCreate_t.mk 5 50 215 10 1 "Max number of aircrafts" 0 UI_ADVCD_SUB_WND xpWidgetClass_Caption
     [num 0, num 0, num 0, num 0, num 0, num 0],
   TFWidgetCreate_t.mk 220 50 50 15 1 "" 0 UI_ADVCD_SUB_WND xpWidgetClass_TextField
     [xpProperty_MaxCharacters, num 3, num 0, num 0, num 0, num 0],
   TFWidgetCreate_t.mk 5 70 215 10 1 "Max number of full a/c to draw" 0 UI_ADVCD_SUB_WND xpWidgetClass_Caption
     [num 0, num 0, num 0, num 0, num 0, num 0],
   TFWidgetCreate_t.mk 220 70 50 15 1 "" 0 UI_ADVCD_SUB_WND xpWidgetClass_TextField
     [xpProperty_MaxCharacters, num 3, num 0, num 0, num 0, num 0],
   TFWidgetCreate_t.mk 5 90 215 10 1 "Max distance for drawing full a/c [km]" 0 UI_ADVCD_SUB_WND xpWidgetClass_Caption
     [num 0, num 0, num 0, num 0, num 0, num 0],
   TFWidgetCreate_t.mk 220 90 50 15 1 "" 0 UI_ADVCD_SUB_WND xpWidgetClass_TextField
     [xpProperty_MaxCharacters, num 2, num 0, num 0, num 0, num 0],
   TFWidgetCreate_t.mk 5 110 215 10 1 "Search distance [km]" 0 UI_ADVCD_SUB_WND xpWidgetClass_Caption
     [num 0, num 0, num 0, num 0, num 0, num 0],
   TFWidgetCreate_t.mk 220 110 50 15 1 "" 0 UI_ADVCD_SUB_WND xpWidgetClass_TextField
     [xpProperty_MaxCharacters, num 3, num 0, num 0, num 0, num 0],
   TFWidgetCreate_t.mk 5 130 215 10 1 "Live data refresh [s]" 0 UI_ADVCD_SUB_WND xpWidgetClass_Caption
     [num 0, num 0, num 0, num 0, num 0, num 0],
   TFWidgetCreate_t.mk 220 130 50 15 1 "" 0 UI_ADVCD_SUB_WND xpWidgetClass_TextField
     [xpProperty_MaxCharacters, num 3, num 0, num 0, num 0, num 0],
   TFWidgetCreate_t.mk 5 150 215 10 1 "Buffering period [s]" 0 UI_ADVCD_SUB_WND xpWidgetClass_Caption
     [num 0, num 0, num 0, num 0, num 0, num 0],
   TFWidgetCreate_t.mk 220 150 50 15 1 "" 0 UI_ADVCD_SUB_WND xpWidgetClass_TextField
     [xpProperty_MaxCharacters, num 3, num 0, num 0, num 0, num 0],
   TFWidgetCreate_t.mk 5 170 215 10 1 "a/c outdated period [s]" 0 UI_ADVCD_SUB_WND xpWidgetClass_Caption
     [num 0, num 0, num 0, num 0, num 0, num 0],
   TFWidgetCreate_t.mk 220 170 50 15 1 "" 0 UI_ADVCD_SUB_WND xpWidgetClass_TextField
     [xpProperty_MaxCharacters, num 3, num 0, num 0, num 0, num 0],
   TFWidgetCreate_t.mk 5 200 215 10 1 "Filter for transponder hex code" 0 UI_ADVCD_SUB_WND xpWidgetClass_Caption
     [num 0, num 0, num 0, num 0, num 0, num 0],
   TFWidgetCreate_t.mk 220 200 70 15 1 "" 0 UI_ADVCD_SUB_WND xpWidgetClass_TextField
     [xpProperty_MaxCharacters, num 8, num 0, num 0, num 0, num 0],
   TFWidgetCreate_t.mk 10 220 10 10 1 "Debug: Log a/c positions" 0 UI_ADVCD_SUB_WND xpWidgetClass_Button
     [xpProperty_ButtonType, xpRadioButton, xpProperty_ButtonBehavior, xpButtonBehaviorCheckBox, num 0, num 0],
   TFWidgetCreate_t.mk 10 235 10 10 1 "Debug: Log model matching (XPlaneMP)" 0 UI_ADVCD_SUB_WND xpWidgetClass_Button
     [xpProperty_ButtonType, xpRadioButton, xpProperty_ButtonBehavior, xpButtonBehaviorCheckBox, num 0, num 0],
   TFWidgetCreate_t.mk 10 250 10 10 1 "Debug: Log raw network flight data (LTRawFD.log)" 0 UI_ADVCD_SUB_WND xpWidgetClass_Button
     [xpProperty_ButtonType, xpRadioButton, xpProperty_ButtonBehavior, xpButtonBehaviorCheckBox, num 0, num 0],
   TFWidgetCreate_t.mk 10 50 (-10) (-10) 0 "CSL" 0 UI_MAIN_WND xpWidgetClass_SubWindow
     [num 0, num 0, num 0, num 0, num 0, num 0],
   TFWidgetCreate_t.mk 5 10 (-5) 10 1 "Enabled | Paths to CSL packages:" 0 UI_CSL_SUB_WND xpWidgetClass_Caption
     [num 0, num 0, num 0, num 0, num 0, num 0],
   TFWidgetCreate_t.mk 10 30 10 10 1 "" 0 UI_CSL_SUB_WND xpWidgetClass_Button
     [xpProperty_ButtonType, xpRadioButton, xpProperty_ButtonBehavior, xpButtonBehaviorCheckBox, num 0, num 0],
   TFWidgetCreate_t.mk 25 27 300 15 1 "" 0 UI_CSL_SUB_WND xpWidgetClass_TextField
     [num 0, num 0, num 0, num 0, num 0, num 0],
   TFWidgetCreate_t.mk 330 30 50 10 1 "Load" 0 UI_CSL_SUB_WND xpWidgetClass_Button
     [xpProperty_ButtonType, xpPushButton, xpProperty_ButtonBehavior, xpButtonBehaviorPushButton, num 0, num 0],
   TFWidgetCreate_t.mk 10 50 10 10 1 "" 0 UI_CSL_SUB_WND xpWidgetClass_Button
     [xpProperty_ButtonType, xpRadioButton, xpProperty_ButtonBehavior, xpButtonBehaviorCheckBox, num 0, num 0],
   TFWidgetCreate_t.mk 25 47 300 15 1 "" 0 UI_CSL_SUB_WND xpWidgetClass_TextField
     [num 0, num 0, num 0, num 0, num 0, num 0],
   TFWidgetCreate_t.mk 330 50 50 10 1 "Load" 0 UI_CSL_SUB_WND xpWidgetClass_Button
     [xpProperty_ButtonType, xpPushButton, xpProperty_ButtonBehavior, xpButtonBehaviorPushButton, num 0, num 0],
   TFWidgetCreate_t.mk 10 70 10 10 1 "" 0 UI_CSL_SUB_WND xpWidgetClass_Button
     [xpProperty_ButtonType, xpRadioButton, xpProperty_ButtonBehavior, xpButtonBehaviorCheckBox, num 0, num 0],
   TFWidgetCreate_t.mk 25 67 300 15 1 "" 0 UI_CSL_SUB_WND xpWidgetClass_TextField
     [num 0, num 0, num 0, num 0, num 0, num 0],
   TFWidgetCreate_t.mk 330 70 50 10 1 "Load" 0 UI_CSL_SUB_WND xpWidgetClass_Button
     [xpProperty_ButtonType, xpPushButton, xpProperty_ButtonBehavior, xpButtonBehaviorPushButton, num 0, num 0],
   TFWidgetCreate_t.mk 10 90 10 10 1 "" 0 UI_CSL_SUB_WND xpWidgetClass_Button
     [xpProperty_ButtonType, xpRadioButton, xpProperty_ButtonBehavior, xpButtonBehaviorCheckBox, num 0, num 0],
   TFWidgetCreate_t.mk 25 87 300 15 1 "" 0 UI_CSL_SUB_WND xpWidgetClass_TextField
     [num 0, num 0, num 0, num 0, num 0, num 0],
   TFWidgetCreate_t.mk 330 90 50 10 1 "Load" 0 UI_CSL_SUB_WND xpWidgetClass_Button
     [xpProperty_ButtonType, xpPushButton, xpProperty_ButtonBehavior, xpButtonBehaviorPushButton, num 0, num 0],
   TFWidgetCreate_t.mk 10 110 10 10 1 "" 0 UI_CSL_SUB_WND xpWidgetClass_Button
     [xpProperty_ButtonType, xpRadioButton, xpProperty_ButtonBehavior, xpButtonBehaviorCheckBox, num 0, num 0],
   TFWidgetCreate_t.mk 25 107 300 15 1 "" 0 UI_CSL_SUB_WND xpWidgetClass_TextField
     [num 0, num 0, num 0, num 0, num 0, num 0],
   TFWidgetCreate_t.mk 330 110 50 10 1 "Load" 0 UI_CSL_SUB_WND xpWidgetClass_Button
     [xpProperty_ButtonType, xpPushButton, xpProperty_ButtonBehavior, xpButtonBehaviorPushButton, num 0, num 0],
   TFWidgetCreate_t.mk 10 130 10 10 1 "" 0 UI_CSL_SUB_WND xpWidgetClass_Button
     [xpProperty_ButtonType, xpRadioButton, xpProperty_ButtonBehavior, xpButtonBehaviorCheckBox, num 0, num 0],
   TFWidgetCreate_t.mk 25 127 300 15 1 "" 0 UI_CSL_SUB_WND xpWidgetClass_TextField
     [num 0, num 0, num 0, num 0, num 0, num 0],
   TFWidgetCreate_t.mk 330 130 50 10 1 "Load" 0 UI_CSL_SUB_WND xpWidgetClass_Button
     [xpProperty_ButtonType, xpPushButton, xpProperty_ButtonBehavior, xpButtonBehaviorPushButton, num 0, num 0],
   TFWidgetCreate_t.mk 10 150 10 10 1 "" 0 UI_CSL_SUB_WND xpWidgetClass_Button
     [xpProperty_ButtonType, xpRadioButton, xpProperty_ButtonBehavior, xpButtonBehaviorCheckBox, num 0, num 0],
   TFWidgetCreate_t.mk 25 147 300 15 1 "" 0 UI_CSL_SUB_WND xpWidgetClass_TextField
     [num 0, num 0, num 0, num 0, num 0, num 0],
   TFWidgetCreate_t.mk 330 150 50 10 1 "Load" 0 UI_CSL_SUB_WND xpWidgetClass_Button
     [xpProperty_ButtonType, xpPushButton, xpProperty_ButtonBehavior, xpButtonBehaviorPushButton, num 0, num 0],
   TFWidgetCreate_t.mk 5 230 115 10 1 "Default a/c type" 0 UI_CSL_SUB_WND xpWidgetClass_Caption
     [num 0, num 0, num 0, num 0, num 0, num 0],
   TFWidgetCreate_t.mk 120 227 50 15 1 "" 0 UI_CSL_SUB_WND xpWidgetClass_TextField
     [xpProperty_MaxCharacters, num 4, num 0, num 0, num 0, num 0],
   TFWidgetCreate_t.mk 5 250 115 10 1 "Ground vehicle type" 0 UI_CSL_SUB_WND xpWidgetClass_Caption
     [num 0, num 0, num 0, num 0, num 0, num 0],
   TFWidgetCreate_t.mk 120 247 50 15 1 "" 0 UI_CSL_SUB_WND xpWidgetClass_TextField
     [xpProperty_MaxCharacters, num 4, num 0, num 0, num 0, num 0]]

/-- The number of entries of `SETTINGS_UI`:
`sizeof(SETTINGS_UI)/sizeof(SETTINGS_UI[0])`. -/
def NUM_WIDGETS : Nat := SETTINGS_UI.length


/-! ## `LTSettingsUI` -/

/-- Modelled from the spec: the number of CSL path lines of the window, the
constant `SETUI_CSL_PATHS` of the header, which is not part of this file. -/
def SETUI_CSL_PATHS : Nat := 7

/-- Modelled from the spec: the number of widgets per CSL path line (check
box, text field, button), the constant `SETUI_CSL_ELEMS_PER_PATH` of the
header, which is not part of this file. -/
def SETUI_CSL_ELEMS_PER_PATH : Nat := 3

/-- The members of `LTSettingsUI` the message handlers use: the ids of the
created widgets, the id registered for the window itself, and the ids bound
to its member objects. A button group is the list of its buttons in the order
in which they were added. -/
structure LTSettingsUI where
  widgetIds : Nat → XPWidgetID
  me : XPWidgetID
  subBasicsLive : XPWidgetID
  subBasicsHistoric : XPWidgetID
  subAcLabel : XPWidgetID
  subAdvcd : XPWidgetID
  subCSL : XPWidgetID
  tabGrp : List XPWidgetID
  btnGrpLabelColorDyn : List XPWidgetID
  logLevelGrp : List XPWidgetID
  txtDateTime : XPWidgetID
  txtAdvcdFilter : XPWidgetID
  txtCSLPaths : List XPWidgetID
  txtDefaultAcType : XPWidgetID
  txtGroundVehicleType : XPWidgetID

/-- The bindings `LTSettingsUI::Enable` makes once `TFUCreateWidgetsEx` has
created the widgets of `SETTINGS_UI` and stored the id of the widget of entry
`i` in `widgetIds[i]`. -/
def LTSettingsUI.Enable (widgetIds : Nat → XPWidgetID) : LTSettingsUI :=
  { widgetIds := widgetIds
    me := widgetIds 0
    subBasicsLive := widgetIds UI_BASICS_LIVE_SUB_WND
    subBasicsHistoric := widgetIds UI_BASICS_HISTORIC_SUB_WND
    subAcLabel := widgetIds UI_LABELS_SUB_WND
    subAdvcd := widgetIds UI_ADVCD_SUB_WND
    subCSL := widgetIds UI_CSL_SUB_WND
    tabGrp := [widgetIds UI_BTN_BASICS, widgetIds UI_BTN_AC_LABELS, widgetIds UI_BTN_ADVANCED,
      widgetIds UI_BTN_CSL]
    btnGrpLabelColorDyn := [widgetIds UI_LABELS_BTN_DYNAMIC, widgetIds UI_LABELS_BTN_FIXED]
    logLevelGrp := [widgetIds UI_ADVCD_BTN_LOG_DEBUG, widgetIds UI_ADVCD_BTN_LOG_INFO,
      widgetIds UI_ADVCD_BTN_LOG_WARNING, widgetIds UI_ADVCD_BTN_LOG_ERROR,
      widgetIds UI_ADVCD_BTN_LOG_FATAL]
    txtDateTime := widgetIds UI_BASICS_TXT_DATETIME
    txtAdvcdFilter := widgetIds UI_ADVCD_TXT_FILTER
    txtCSLPaths := (List.range SETUI_CSL_PATHS).map
      (fun i => widgetIds (UI_CSL_BTN_ENABLE_1 + i * SETUI_CSL_ELEMS_PER_PATH + 1))
    txtDefaultAcType := widgetIds UI_CSL_TXT_DEFAULT_AC_TYPE
    txtGroundVehicleType := widgetIds UI_CSL_TXT_GROUND_VEHICLE_TYPE }

/-- What the handlers ask of code that is not part of this file: the results
of the base class handlers, the button state and the text of a widget, and the
checked index of the log-level button group. -/
structure Toolkit where
  baseMsgHidden : XPWidgetID → Bool
  baseMsgButtonStateChanged : XPWidgetID → Bool → Bool
  buttonState : XPWidgetID → Int
  descriptor : XPWidgetID → String
  logLevelCheckedIndex : Int

/-- Calls the handlers of `LTSettingsUI` make, in program order. -/
inductive UICall where
  /-- The call `dataRefs.SaveConfigFile()`. -/
  | SaveConfigFile : UICall
  /-- The call `TFMainWindowWidget::MsgHidden(hiddenWidget)`. -/
  | baseMsgHidden : XPWidgetID → UICall
  /-- The call `TFMainWindowWidget::MsgButtonStateChanged(buttonWidget, bNowChecked)`. -/
  | baseMsgButtonStateChanged : XPWidgetID → Bool → UICall
  /-- The call `w.Show(b)` on the member object bound to the widget id. -/
  | Show : XPWidgetID → Bool → UICall
  /-- The call `LabelBtnSave()`. -/
  | LabelBtnSave : UICall
  /-- The call `drLabelColDyn.Set(b)`. -/
  | drLabelColDynSet : Bool → UICall
  /-- The call `dataRefs.SetLogLevel(i)`. -/
  | SetLogLevel : Int → UICall
  /-- The call `dataRefs.SaveCSLPath(idx, newPath)` with the two members of `newPath`. -/
  | SaveCSLPath : Nat → Bool → String → UICall
  /-- The call `TFMainWindowWidget::MsgTextFieldChanged(textWidget, text)`. -/
  | baseMsgTextFieldChanged : XPWidgetID → String → UICall
  /-- The call `TFMainWindowWidget::MsgPushButtonPressed(buttonWidget)`. -/
  | baseMsgPushButtonPressed : XPWidgetID → UICall
  /-- The call `DataRefs::LTSetDebugAcFilter(NULL, i)`. -/
  | LTSetDebugAcFilter : Int → UICall
  /-- The call `dataRefs.SetDefaultAcIcaoType(text)`. -/
  | SetDefaultAcIcaoType : String → UICall
  /-- The call `dataRefs.SetDefaultCarIcaoType(text)`. -/
  | SetDefaultCarIcaoType : String → UICall
  /-- The call `w.SetDescriptor(s)` on the member object bound to the widget id. -/
  | SetDescriptor : XPWidgetID → String → UICall
  /-- The call `intLabelColor.Set(c)`. -/
  | intLabelColorSet : Int → UICall
  /-- The call `dataRefs.LoadCSLPackage(i)`. -/
  | LoadCSLPackage : Nat → UICall
  deriving DecidableEq

/-- The function `LTSettingsUI::SaveCSLPath(idx)`. -/
def LTSettingsUI.SaveCSLPath (ui : LTSettingsUI) (tk : Toolkit) (idx : Nat) : List UICall :=
  [UICall.SaveCSLPath idx
    (tk.buttonState (ui.widgetIds (UI_CSL_BTN_ENABLE_1 + idx * SETUI_CSL_ELEMS_PER_PATH)) != 0)
    (tk.descriptor (ui.txtCSLPaths.getD idx 0))]

/-- The handler `LTSettingsUI::MsgHidden`: its return value and its calls. -/
def LTSettingsUI.MsgHidden (ui : LTSettingsUI) (tk : Toolkit) (hiddenWidget : XPWidgetID) :
    Bool × List UICall :=
  ((tk.baseMsgHidden hiddenWidget),
    (if hiddenWidget = ui.me then [UICall.SaveConfigFile] else []) ++
      [UICall.baseMsgHidden hiddenWidget])

/-- The a/c label check boxes of lines 633-646. -/
def labelButtons : List Nat :=
  [UI_LABELS_BTN_TYPE, UI_LABELS_BTN_AC_ID, UI_LABELS_BTN_TRANSP, UI_LABELS_BTN_REG,
   UI_LABELS_BTN_OP, UI_LABELS_BTN_CALL_SIGN, UI_LABELS_BTN_FLIGHT_NO, UI_LABELS_BTN_ROUTE,
   UI_LABELS_BTN_PHASE, UI_LABELS_BTN_HEADING, UI_LABELS_BTN_ALT, UI_LABELS_BTN_HEIGHT,
   UI_LABELS_BTN_SPEED, UI_LABELS_BTN_VSI]

/-- The handler `LTSettingsUI::MsgButtonStateChanged`: its return value and
its calls. -/
def LTSettingsUI.MsgButtonStateChanged (ui : LTSettingsUI) (tk : Toolkit)
    (buttonWidget : XPWidgetID) (bNowChecked : Bool) : Bool × List UICall :=
  let bRet := tk.baseMsgButtonStateChanged buttonWidget bNowChecked
  let first := [UICall.baseMsgButtonStateChanged buttonWidget bNowChecked]
  if ui.widgetIds UI_BTN_BASICS = buttonWidget then
    (true, first ++ [UICall.Show ui.subBasicsLive bNowChecked,
      UICall.Show ui.subBasicsHistoric bNowChecked])
  else if ui.widgetIds UI_BTN_AC_LABELS = buttonWidget then
    (true, first ++ [UICall.Show ui.subAcLabel bNowChecked])
  else if ui.widgetIds UI_BTN_ADVANCED = buttonWidget then
    (true, first ++ [UICall.Show ui.subAdvcd bNowChecked])
  else if ui.widgetIds UI_BTN_CSL = buttonWidget then
    (true, first ++ [UICall.Show ui.subCSL bNowChecked])
  else if labelButtons.any (fun i => ui.widgetIds i == buttonWidget) then
    (true, first ++ [UICall.LabelBtnSave])
  else if ui.widgetIds UI_LABELS_BTN_DYNAMIC = buttonWidget ∨
      ui.widgetIds UI_LABELS_BTN_FIXED = buttonWidget then
    (true, first ++ [UICall.drLabelColDynSet
      (buttonWidget == ui.widgetIds UI_LABELS_BTN_DYNAMIC)])
  else if bNowChecked ∧ buttonWidget ∈ ui.logLevelGrp then
    (true, first ++ [UICall.SetLogLevel tk.logLevelCheckedIndex])
  else
    match (List.range SETUI_CSL_PATHS).find? (fun i =>
        ui.widgetIds (UI_CSL_BTN_ENABLE_1 + i * SETUI_CSL_ELEMS_PER_PATH) == buttonWidget) with
    | some i => (true, first ++ ui.SaveCSLPath tk i)
    | none => (bRet, first)

/-- What the text field and push button handlers ask, beyond `Toolkit`, of
code that is not part of this file: the results of the base class handlers,
and whether the filter field holds a transponder code and which. -/
structure ToolkitEx extends Toolkit where
  baseMsgTextFieldChanged : XPWidgetID → String → Bool
  baseMsgPushButtonPressed : XPWidgetID → Bool
  hasTranspIcao : Bool
  transpIcaoInt : Int

/-- The colour constants of the header, which is not part of this file. -/
structure Colors where
  COLOR_YELLOW : Int
  COLOR_RED : Int
  COLOR_GREEN : Int
  COLOR_BLUE : Int

/-- The setters and getters of the default types in `DataRefs`, which is not
part of this file, on a state `D` of the configuration: a setter answers
whether it took the value and gives the state it leaves. -/
structure DataRefsTypes (D : Type) where
  SetDefaultAcIcaoType : String → D → Bool × D
  GetDefaultAcIcaoType : D → String
  SetDefaultCarIcaoType : String → D → Bool × D
  GetDefaultCarIcaoType : D → String

/-- The handler `LTSettingsUI::MsgTextFieldChanged`: its return value, its
calls, and the state of the configuration the setters of the types leave. -/
def LTSettingsUI.MsgTextFieldChanged {D : Type} (ui : LTSettingsUI) (tk : ToolkitEx)
    (dr : DataRefsTypes D) (textWidget : XPWidgetID) (text : String) (d : D) :
    Bool × List UICall × D :=
  if textWidget = ui.txtAdvcdFilter then
    (true, [UICall.LTSetDebugAcFilter (if tk.hasTranspIcao then tk.transpIcaoInt else 0)], d)
  else
    match (List.range SETUI_CSL_PATHS).find? (fun i =>
        ui.widgetIds (UI_CSL_TXT_PATH_1 + i * SETUI_CSL_ELEMS_PER_PATH) == textWidget) with
    | some i => (true, ui.SaveCSLPath tk.toToolkit i, d)
    | none =>
      if ui.txtDefaultAcType = textWidget then
        (true,
          UICall.SetDefaultAcIcaoType text ::
            (if (dr.SetDefaultAcIcaoType text d).1 then []
             else [UICall.SetDescriptor ui.txtDefaultAcType
               (dr.GetDefaultAcIcaoType (dr.SetDefaultAcIcaoType text d).2)]),
          (dr.SetDefaultAcIcaoType text d).2)
      else if ui.txtGroundVehicleType = textWidget then
        (true,
          UICall.SetDefaultCarIcaoType text ::
            (if (dr.SetDefaultCarIcaoType text d).1 then []
             else [UICall.SetDescriptor ui.txtGroundVehicleType
               (dr.GetDefaultCarIcaoType (dr.SetDefaultCarIcaoType text d).2)]),
          (dr.SetDefaultCarIcaoType text d).2)
      else
        (tk.baseMsgTextFieldChanged textWidget text,
          [UICall.baseMsgTextFieldChanged textWidget text], d)

/-- The handler `LTSettingsUI::MsgPushButtonPressed`: its return value and its
calls. -/
def LTSettingsUI.MsgPushButtonPressed (ui : LTSettingsUI) (tk : ToolkitEx) (col : Colors)
    (buttonWidget : XPWidgetID) : Bool × List UICall :=
  if ui.widgetIds UI_LABELS_BTN_YELLOW = buttonWidget then
    (true, [UICall.intLabelColorSet col.COLOR_YELLOW])
  else if ui.widgetIds UI_LABELS_BTN_RED = buttonWidget then
    (true, [UICall.intLabelColorSet col.COLOR_RED])
  else if ui.widgetIds UI_LABELS_BTN_GREEN = buttonWidget then
    (true, [UICall.intLabelColorSet col.COLOR_GREEN])
  else if ui.widgetIds UI_LABELS_BTN_BLUE = buttonWidget then
    (true, [UICall.intLabelColorSet col.COLOR_BLUE])
  else
    match (List.range SETUI_CSL_PATHS).find? (fun i =>
        ui.widgetIds (UI_CSL_BTN_LOAD_1 + i * SETUI_CSL_ELEMS_PER_PATH) == buttonWidget) with
    | some i => (true, ui.SaveCSLPath tk.toToolkit i ++ [UICall.LoadCSLPackage i])
    | none =>
      (tk.baseMsgPushButtonPressed buttonWidget, [UICall.baseMsgPushButtonPressed buttonWidget])

/-- The two default types the configuration holds. -/
structure DefaultTypes where
  sDefaultAcIcaoType : String
  sDefaultCarIcaoType : String
  deriving DecidableEq

/-- Modelled from the spec: the setters and getters of the default types in
`DataRefs`, which are not part of this file. A setter validates the text: a
valid text becomes the configured type and the setter returns true; for any
other text it returns false and the configured type is unchanged. What makes
a text valid is left open (`validAc`, `validCar`). -/
def defaultTypesOf (validAc validCar : String → Bool) : DataRefsTypes DefaultTypes :=
  { SetDefaultAcIcaoType := fun text s =>
      if validAc text then (true, { s with sDefaultAcIcaoType := text }) else (false, s)
    GetDefaultAcIcaoType := fun s => s.sDefaultAcIcaoType
    SetDefaultCarIcaoType := fun text s =>
      if validCar text then (true, { s with sDefaultCarIcaoType := text }) else (false, s)
    GetDefaultCarIcaoType := fun s => s.sDefaultCarIcaoType }

/-! ## An example of the tab group at work -/

/-- The enumerators that name a widget: all but the last, which counts them. -/
def namedIndexes : List String := UI_WIDGET_IDX_T.dropLast

/-- The text `pat` occurs in `s`. -/
def occursIn (pat : String) (s : String) : Bool :=
  s.toList.tails.any (fun t => pat.toList.isPrefixOf t)

/-- The text `s` ends with `suf`. -/
def endsWith (suf : String) (s : String) : Bool :=
  suf.toList.reverse.isPrefixOf s.toList.reverse

/-- The widget classes the name of an index announces: `UI_MAIN_WND` the main
window, `*_SUB_WND` a sub-window, `*_BTN_*` a button, `*_TXT_*` and `*_INT_*`
a text field, `*_CAP_*` a caption. -/
def announcedClasses (name : String) : List XPWidgetClass :=
  (if name = "UI_MAIN_WND" then [xpWidgetClass_MainWindow] else []) ++
  (if endsWith "_SUB_WND" name then [xpWidgetClass_SubWindow] else []) ++
  (if occursIn "_BTN_" name then [xpWidgetClass_Button] else []) ++
  (if occursIn "_TXT_" name || occursIn "_INT_" name then [xpWidgetClass_TextField] else []) ++
  (if occursIn "_CAP_" name then [xpWidgetClass_Caption] else [])

/-- Modelled from the spec: the log levels `logDEBUG` = 0 to `logFATAL` = 4 of
`logLevelTy`, which is not part of this file, by the word that names each. -/
def logLevelNames : List String := ["Debug", "Info", "Warning", "Error", "Fatal"]

/-- The parent an entry of `SETTINGS_UI` names (`containerIndex`). -/
def parentIndex (i : Nat) : Option Int :=
  SETTINGS_UI[i]?.map (fun w => w.containerIndex)

/-- The widget class of an entry of `SETTINGS_UI`. -/
def classAt (i : Nat) : Option XPWidgetClass :=
  SETTINGS_UI[i]?.map (fun w => w.widgetClass)

/-- The entry is the main window or a sub-window. -/
def isWindowAt (i : Nat) : Bool :=
  classAt i == some xpWidgetClass_MainWindow || classAt i == some xpWidgetClass_SubWindow

/-- Following parents from entry `i`, for at most `steps` steps, arrives at
entry 0, the main window. -/
def reachesMainWindow : Nat → Nat → Bool
  | steps, i =>
    if i = 0 then true
    else
      match steps with
      | 0 => false
      | steps + 1 =>
        match parentIndex i with
        | some p => decide (0 ≤ p) && reachesMainWindow steps p.toNat
        | none => false

/-- The value a definition gives to a property, if it names the property in
one of its three pairs. -/
def propValue (w : TFWidgetCreate_t) (id : XPProp) : Option XPProp :=
  match w.props with
  | [a, b, c, d, e, f] =>
    if a = id then some b else if c = id then some d else if e = id then some f else none
  | _ => none

/-- The definition is a Button that behaves as a check box. -/
def isCheckBox (w : TFWidgetCreate_t) : Bool :=
  w.widgetClass == xpWidgetClass_Button &&
    propValue w xpProperty_ButtonBehavior == some xpButtonBehaviorCheckBox

/-- The definition is a Button that looks and behaves as a push button. -/
def isPushButton (w : TFWidgetCreate_t) : Bool :=
  w.widgetClass == xpWidgetClass_Button &&
    propValue w xpProperty_ButtonType == some xpPushButton &&
    propValue w xpProperty_ButtonBehavior == some xpButtonBehaviorPushButton

/-- The name of the index of CSL path line `i` (counted from 0) with the given
stem: the stem followed by the number `i + 1`. -/
def cslLineName (stem : String) (i : Nat) : String := stem ++ toString (i + 1)

/-! ## Lemmas on the matcher -/

theorem isDigit_ne_minus {c : Char} (h : c.isDigit = true) : c ≠ '-' := by
  rintro rfl; revert h; decide

theorem isDigit_ne_colon {c : Char} (h : c.isDigit = true) : c ≠ ':' := by
  rintro rfl; revert h; decide

theorem isDigit_ne_space {c : Char} (h : c.isDigit = true) : c ≠ ' ' := by
  rintro rfl; revert h; decide

theorem run_seq (a b : Regex) (s : MatchState) :
    (Regex.seq a b).run s = (a.run s).flatMap (fun t => b.run t) := rfl

theorem run_opt (r : Regex) (s : MatchState) : (Regex.opt r).run s = r.run s ++ [s] := rfl

theorem run_eps (s : MatchState) : Regex.eps.run s = [s] := rfl

theorem run_group (i : Nat) (r : Regex) (s : MatchState) :
    (Regex.group i r).run s = (r.run s).map
      (fun t => ⟨t.pos, t.rest, t.caps.set i (some (s.rest.take (t.pos - s.pos)))⟩) := rfl

theorem run_chr_mem {c : Char} {s t : MatchState} :
    t ∈ (Regex.chr c).run s ↔ s.rest = c :: t.rest ∧ t.pos = s.pos + 1 ∧ t.caps = s.caps := by
  obtain ⟨p, r, cs⟩ := s
  obtain ⟨p', r', cs'⟩ := t
  cases r with
  | nil => simp [Regex.run]
  | cons x xs =>
    by_cases hx : x = c
    · simp [Regex.run, hx]; tauto
    · simp [Regex.run, hx]

theorem run_digit_mem {s t : MatchState} :
    t ∈ Regex.digit.run s ↔
      ∃ d, d.isDigit = true ∧ s.rest = d :: t.rest ∧ t.pos = s.pos + 1 ∧ t.caps = s.caps := by
  obtain ⟨p, r, cs⟩ := s
  obtain ⟨p', r', cs'⟩ := t
  cases r with
  | nil => simp [Regex.run]
  | cons x xs =>
    by_cases hx : x.isDigit = true
    · simp [Regex.run, hx]
      constructor
      · rintro ⟨rfl, rfl, rfl⟩; exact ⟨x, hx, ⟨rfl, rfl⟩, rfl, rfl⟩
      · rintro ⟨d, _, ⟨rfl, rfl⟩, rfl, rfl⟩; exact ⟨rfl, rfl, rfl⟩
    · simp [Regex.run, hx]
      rintro d hd rfl; exact absurd hd hx

theorem run_digits12_mem {s t : MatchState} :
    t ∈ (Regex.rep Regex.digit 1 2).run s ↔
      ∃ ds, isDigits12 ds = true ∧ s.rest = ds ++ t.rest ∧
        t.pos = s.pos + ds.length ∧ t.caps = s.caps := by
  simp only [Regex.rep, run_seq, run_opt, run_eps, List.mem_flatMap, run_digit_mem,
    List.mem_append, List.mem_singleton]
  constructor
  · rintro ⟨u, ⟨d, hd, hr, hp, hc⟩, h | rfl⟩
    · obtain ⟨v, ⟨e, he, hr', hp', hc'⟩, rfl⟩ := h
      refine ⟨[d, e], by simp [isDigits12, isDigits, hd, he], by simp [hr, hr'], ?_, by rw [hc', hc]⟩
      simp [hp', hp]
    · exact ⟨[d], by simp [isDigits12, isDigits, hd], by simp [hr], by simp [hp], hc⟩
  · rintro ⟨ds, hds, hr, hp, hc⟩
    simp only [isDigits12, isDigits, Bool.or_eq_true, Bool.and_eq_true, beq_iff_eq,
      List.all_eq_true] at hds
    rcases hds with ⟨hl, hd⟩ | ⟨hl, hd⟩
    · obtain ⟨d, rfl⟩ := List.length_eq_one.mp hl
      refine ⟨t, ⟨d, hd d (by simp), by simpa using hr, by simpa using hp, hc⟩, Or.inr rfl⟩
    · obtain ⟨d, e, rfl⟩ := List.length_eq_two.mp hl
      refine ⟨⟨s.pos + 1, e :: t.rest, s.caps⟩,
        ⟨d, hd d (by simp), by simpa using hr, rfl, rfl⟩, Or.inl ⟨t, ⟨e, hd e (by simp), rfl, ?_, hc⟩, rfl⟩⟩
      simp [hp]

theorem run_digits4_mem {s t : MatchState} :
    t ∈ (Regex.rep Regex.digit 4 4).run s ↔
      ∃ ds, isDigits 4 ds = true ∧ s.rest = ds ++ t.rest ∧
        t.pos = s.pos + ds.length ∧ t.caps = s.caps := by
  simp only [Regex.rep, run_seq, run_eps, List.mem_flatMap, run_digit_mem, List.mem_singleton]
  constructor
  · rintro ⟨u1, ⟨d1, hd1, hr1, hp1, hc1⟩, u2, ⟨d2, hd2, hr2, hp2, hc2⟩,
      u3, ⟨d3, hd3, hr3, hp3, hc3⟩, u4, ⟨d4, hd4, hr4, hp4, hc4⟩, rfl⟩
    refine ⟨[d1, d2, d3, d4], by simp [isDigits, hd1, hd2, hd3, hd4],
      by simp [hr1, hr2, hr3, hr4], ?_, by rw [hc4, hc3, hc2, hc1]⟩
    simp [hp4, hp3, hp2, hp1]
  · rintro ⟨ds, hds, hr, hp, hc⟩
    simp only [isDigits, Bool.and_eq_true, beq_iff_eq, List.all_eq_true] at hds
    obtain ⟨hl, hd⟩ := hds
    obtain ⟨d1, d2, d3, d4, rfl⟩ : ∃ d1 d2 d3 d4, ds = [d1, d2, d3, d4] := by
      match ds, hl with
      | [a, b, c, d], _ => exact ⟨a, b, c, d, rfl⟩
    refine ⟨⟨s.pos + 1, d2 :: d3 :: d4 :: t.rest, s.caps⟩,
      ⟨d1, hd d1 (by simp), by simpa using hr, rfl, rfl⟩,
      ⟨s.pos + 2, d3 :: d4 :: t.rest, s.caps⟩, ⟨d2, hd d2 (by simp), rfl, rfl, rfl⟩,
      ⟨s.pos + 3, d4 :: t.rest, s.caps⟩, ⟨d3, hd d3 (by simp), rfl, rfl, rfl⟩,
      t, ⟨d4, hd d4 (by simp), rfl, ?_, hc⟩, rfl⟩
    simp [hp]

theorem run_group_digits12_mem {i : Nat} {s t : MatchState} :
    t ∈ (Regex.group i (Regex.rep Regex.digit 1 2)).run s ↔
      ∃ ds, isDigits12 ds = true ∧ s.rest = ds ++ t.rest ∧
        t.pos = s.pos + ds.length ∧ t.caps = s.caps.set i (some ds) := by
  simp only [run_group, List.mem_map, run_digits12_mem]
  constructor
  · rintro ⟨u, ⟨ds, hds, hr, hp, hc⟩, rfl⟩
    exact ⟨ds, hds, hr, hp, by simp [hp, hr, hc]⟩
  · rintro ⟨ds, hds, hr, hp, hc⟩
    refine ⟨⟨t.pos, t.rest, s.caps⟩, ⟨ds, hds, hr, hp, rfl⟩, ?_⟩
    obtain ⟨tp, tr, tc⟩ := t
    simp only at hr hp hc
    simp [hp, hr, hc]

theorem mark_count_re : re.mark_count = 8 := rfl

@[simp] theorem yearText_none : yearText none = [] := rfl

@[simp] theorem yearText_some (y : List Char) : yearText (some y) = y ++ ['-'] := rfl

@[simp] theorem secondText_none : secondText none = [] := rfl

@[simp] theorem secondText_some (s : List Char) : secondText (some s) = ':' :: s := rfl

theorem take_succ_append (ds r : List Char) (c : Char) :
    List.take (ds.length + 1) (ds ++ c :: r) = ds ++ [c] := by
  have e : ds ++ c :: r = (ds ++ [c]) ++ r := by simp
  rw [e]
  exact List.take_left' (by simp)

theorem run_year_mem {s t : MatchState} :
    t ∈ (Regex.opt (Regex.group 1 (Regex.seq (Regex.group 2 (Regex.rep Regex.digit 4 4))
      (Regex.chr '-')))).run s ↔
      ∃ year : Option (List Char), (∀ y, year = some y → isDigits 4 y = true) ∧
        s.rest = yearText year ++ t.rest ∧
        t.pos = s.pos + (yearText year).length ∧
        t.caps = capYear year s.caps := by
  simp only [run_opt, run_group, run_seq, List.mem_append, List.mem_map, List.mem_flatMap,
    run_digits4_mem, run_chr_mem, List.mem_singleton]
  constructor
  · rintro (⟨u, ⟨v, ⟨w, ⟨ds, hds, hr, hp, hc⟩, rfl⟩, hr', hp', hc'⟩, rfl⟩ | rfl)
    · refine ⟨some ds, by simp [hds], ?_, ?_, ?_⟩
      · simp only at hr'; simp [hr, hr']
      · simp only at hp'; simp [hp', hp]; omega
      · simp only at hr' hp' hc'
        simp only [capYear, hc', hc, hp', hp, hr, hr']
        have e1 : ds.length + (s.pos : Nat) - s.pos = ds.length := by omega
        have e2 : s.pos + ds.length + 1 - s.pos = ds.length + 1 := by omega
        simp [e1, e2, Nat.add_comm, take_succ_append]
    · exact ⟨none, by simp, by simp, by simp, rfl⟩
  · rintro ⟨year, hy, hr, hp, hc⟩
    obtain ⟨tp, tr, tc⟩ := t
    obtain ⟨sp, sr, sc⟩ := s
    simp only at hr hp hc
    cases year with
    | none =>
      right
      simp only [yearText_none, List.length_nil, List.nil_append, Nat.add_zero, capYear] at hr hp hc
      simp [hr, hp, hc]
    | some y =>
      left
      have hy4 := hy y rfl
      simp only [yearText_some, List.length_append, List.length_singleton, List.append_assoc,
        List.singleton_append] at hr hp
      simp only [capYear] at hc
      refine ⟨⟨tp, tr, sc.set 2 (some y)⟩, ⟨⟨sp + y.length, '-' :: tr, sc.set 2 (some y)⟩,
        ⟨⟨sp + y.length, '-' :: tr, sc⟩, ⟨y, hy4, by simp [hr], rfl, rfl⟩, ?_⟩,
        rfl, by simp [hp]; omega, rfl⟩, ?_⟩
      · simp [hr]
      · have e2 : sp + (y.length + 1) - sp = y.length + 1 := by omega
        simp [hp, hc, hr, e2, take_succ_append]

theorem run_second_mem {s t : MatchState} :
    t ∈ (Regex.opt (Regex.group 7 (Regex.seq (Regex.chr ':')
      (Regex.group 8 (Regex.rep Regex.digit 1 2))))).run s ↔
      ∃ second : Option (List Char), (∀ x, second = some x → isDigits12 x = true) ∧
        s.rest = secondText second ++ t.rest ∧
        t.pos = s.pos + (secondText second).length ∧
        t.caps = capSecond second s.caps := by
  simp only [run_opt, run_group, run_seq, List.mem_append, List.mem_map, List.mem_flatMap,
    run_digits12_mem, run_chr_mem, List.mem_singleton]
  constructor
  · rintro (⟨u, ⟨v, ⟨hr, hp, hc⟩, w, ⟨ds, hds, hr', hp', hc'⟩, rfl⟩, rfl⟩ | rfl)
    · refine ⟨some ds, by simp [hds], ?_, ?_, ?_⟩
      · simp [hr, hr']
      · simp [hp', hp]; omega
      · have e1 : s.pos + 1 + ds.length - (s.pos + 1) = ds.length := by omega
        have e2 : s.pos + 1 + ds.length - s.pos = (ds.length + 1) := by omega
        have e3 : ':' :: (ds ++ w.rest) = (':' :: ds) ++ w.rest := by simp
        simp only [capSecond, hc', hc, hp', hp, hr, hr', e1, e2, List.take_left]
        rw [e3, List.take_left' (by simp)]
    · exact ⟨none, by simp, by simp, by simp, rfl⟩
  · rintro ⟨second, hy, hr, hp, hc⟩
    obtain ⟨tp, tr, tc⟩ := t
    obtain ⟨sp, sr, sc⟩ := s
    simp only at hr hp hc
    cases second with
    | none =>
      right
      simp only [secondText_none, List.length_nil, List.nil_append, Nat.add_zero,
        capSecond] at hr hp hc
      simp [hr, hp, hc]
    | some y =>
      left
      have hy4 := hy y rfl
      simp only [secondText_some, List.length_cons, List.cons_append] at hr hp
      simp only [capSecond] at hc
      refine ⟨⟨tp, tr, sc.set 8 (some y)⟩, ⟨⟨sp + 1, y ++ tr, sc⟩, ⟨by simp [hr], rfl, rfl⟩,
        ⟨tp, tr, sc⟩, ⟨y, hy4, rfl, by simp [hp]; omega, rfl⟩, ?_⟩, ?_⟩
      · have e1 : sp + (y.length + 1) - (sp + 1) = y.length := by omega
        simp [hp, e1]
      · have e2 : sp + (y.length + 1) - sp = y.length + 1 := by omega
        have e3 : ':' :: (y ++ tr) = (':' :: y) ++ tr := by simp
        simp only [hp, hc, hr, e2, List.cons_append]
        rw [e3, List.take_left' (by simp)]

theorem run_bol_mem {s t : MatchState} : t ∈ Regex.bol.run s ↔ s.pos = 0 ∧ t = s := by
  by_cases h : s.pos = 0 <;> simp [Regex.run, h]

theorem run_re_sound {text : List Char} {caps : smatch} {t : MatchState}
    (h : t ∈ re.run ⟨0, text, caps⟩) :
    ∃ p : DTParts, p.wf = true ∧ text = p.text ++ t.rest ∧ t.pos = p.text.length ∧
      t.caps = p.captures caps := by
  simp only [re, run_seq, List.mem_flatMap, run_bol_mem, run_year_mem, run_second_mem,
    run_group_digits12_mem, run_chr_mem] at h
  obtain ⟨s0, ⟨-, rfl⟩, s1, ⟨year, hy, hr1, hp1, hc1⟩, s2, ⟨mo, hmo, hr2, hp2, hc2⟩,
    s3, ⟨hr3, hp3, hc3⟩, s4, ⟨d, hd, hr4, hp4, hc4⟩, s5, ⟨hr5, hp5, hc5⟩,
    s6, ⟨hh, hhh, hr6, hp6, hc6⟩, s7, ⟨hr7, hp7, hc7⟩, s8, ⟨mi, hmi, hr8, hp8, hc8⟩,
    second, hs, hr9, hp9, hc9⟩ := h
  refine ⟨⟨year, mo, d, hh, mi, second⟩, ?_, ?_, ?_, ?_⟩
  · cases year <;> cases second <;> simp_all [DTParts.wf]
  · simp only at hr1
    cases year <;> cases second <;>
      simp [DTParts.text, yearText, secondText, hr1, hr2, hr3, hr4, hr5, hr6,
        hr7, hr8, hr9]
  · simp only at hp1
    cases year <;> cases second <;>
      simp [DTParts.text, yearText, secondText, hp1, hp2, hp3, hp4, hp5, hp6,
        hp7, hp8, hp9] <;> omega
  · simp only at hc1
    simp only [DTParts.captures, hc9, hc8, hc7, hc6, hc5, hc4, hc3, hc2, hc1]

theorem matchesAt_re_succ (text : List Char) (i : Nat) : matchesAt re (text) (i + 1) = [] := by
  simp [matchesAt, re, run_seq, Regex.run]

theorem regex_search_re (text : List Char) :
    regex_search text re = (matchesAt re text 0).headD [] := by
  have h : (List.map Nat.succ (List.range text.length)).flatMap (matchesAt re text) = [] := by
    rw [List.flatMap_eq_nil_iff]
    intro x hx
    obtain ⟨i, -, rfl⟩ := List.mem_map.mp hx
    exact matchesAt_re_succ text i
  rw [regex_search, List.range_succ_eq_map, List.flatMap_cons, h, List.append_nil]

theorem captures_init (p : DTParts) (w : List Char) :
    (p.captures (List.replicate (re.mark_count + 1) none)).set 0 (some w) =
      (some w) :: p.toSmatch.tail := by
  obtain ⟨year, mo, d, h, mi, second⟩ := p
  cases year <;> cases second <;>
    simp [mark_count_re, DTParts.captures, capYear, capSecond, DTParts.toSmatch, List.replicate]

theorem matchesAt_re_sound {text : List Char} {m : smatch} (h : m ∈ matchesAt re text 0) :
    ∃ (p : DTParts) (rest : List Char),
      p.wf = true ∧ text = p.text ++ rest ∧ m = p.toSmatch := by
  obtain ⟨t, ht, rfl⟩ := List.mem_map.mp h
  rw [List.drop_zero] at ht
  obtain ⟨p, hwf, htext, hpos, hcaps⟩ := run_re_sound ht
  refine ⟨p, t.rest, hwf, htext, ?_⟩
  rw [hcaps, captures_init, List.drop_zero, hpos]
  conv_lhs => rw [htext]
  simp [DTParts.toSmatch]

/-- The match results are either empty or hold the 9 sub-matches of a
decomposition of the text. -/
theorem regex_search_re_cases (text : List Char) :
    regex_search text re = [] ∨
      ∃ (p : DTParts) (rest : List Char),
        p.wf = true ∧ text = p.text ++ rest ∧ regex_search text re = p.toSmatch := by
  rw [regex_search_re]
  cases hm : matchesAt re text 0 with
  | nil => left; rfl
  | cons m ms =>
    right
    have hmem : m ∈ matchesAt re text 0 := by simp [hm]
    obtain ⟨p, rest, h1, h2, h3⟩ := matchesAt_re_sound hmem
    exact ⟨p, rest, h1, h2, by simpa using h3⟩

/-! ## Lemmas on `std::stoi` and the fields -/

theorem isDigit_not_isspace {c : Char} (h : c.isDigit = true) : isspace c = false := by
  have h1 := isDigit_ne_space h
  have h2 : c ≠ '\t' := by rintro rfl; revert h; decide
  have h3 : c ≠ '\n' := by rintro rfl; revert h; decide
  have h4 : c ≠ '\x0b' := by rintro rfl; revert h; decide
  have h5 : c ≠ '\x0c' := by rintro rfl; revert h; decide
  have h6 : c ≠ '\r' := by rintro rfl; revert h; decide
  simp [isspace, h1, h2, h3, h4, h5, h6]

theorem isDigit_ne_plus {c : Char} (h : c.isDigit = true) : c ≠ '+' := by
  rintro rfl; revert h; decide

theorem isDigit_toNat_le {c : Char} (h : c.isDigit = true) : c.toNat - '0'.toNat ≤ 9 := by
  simp only [Char.isDigit, Bool.and_eq_true, decide_eq_true_eq] at h
  have h2 : c.val.toNat ≤ 57 := h.2
  show c.val.toNat - 48 ≤ 9
  omega

theorem foldl_digits_lt (ds : List Char) (hd : ∀ c ∈ ds, c.isDigit = true) (acc : Nat) :
    ds.foldl (fun acc c => 10 * acc + (c.toNat - '0'.toNat)) acc < (acc + 1) * 10 ^ ds.length := by
  induction ds generalizing acc with
  | nil => simp
  | cons d ds ih =>
    have h9 := isDigit_toNat_le (hd d (by simp))
    have := ih (fun c hc => hd c (by simp [hc])) (10 * acc + (d.toNat - '0'.toNat))
    simp only [List.foldl_cons, List.length_cons]
    calc _ < (10 * acc + (d.toNat - '0'.toNat) + 1) * 10 ^ ds.length := this
      _ ≤ ((acc + 1) * 10) * 10 ^ ds.length := by
        apply Nat.mul_le_mul_right; omega
      _ = (acc + 1) * 10 ^ (ds.length + 1) := by rw [pow_succ]; ring

theorem digitsValue_lt (ds : List Char) (hd : ∀ c ∈ ds, c.isDigit = true) :
    digitsValue ds < 10 ^ ds.length := by
  simpa [digitsValue] using foldl_digits_lt ds hd 0

theorem stoi_digits {ds : List Char} (hne : ds ≠ []) (hd : ∀ c ∈ ds, c.isDigit = true)
    (hlen : ds.length ≤ 9) : stoi ds = some (digitsValue ds : Int) := by
  obtain ⟨a, t, rfl⟩ := List.exists_cons_of_ne_nil hne
  have ha := hd a (by simp)
  have htw : List.takeWhile Char.isDigit (a :: t) = a :: t := by
    rw [List.takeWhile_eq_self_iff]; exact hd
  have hv := digitsValue_lt (a :: t) hd
  have hpow : 10 ^ (a :: t).length ≤ 10 ^ 9 := Nat.pow_le_pow_right (by norm_num) hlen
  have hv2 : (digitsValue (a :: t) : Int) < 1000000000 := by
    have : digitsValue (a :: t) < 1000000000 := by
      calc _ < 10 ^ (a :: t).length := hv
        _ ≤ 10 ^ 9 := hpow
        _ = 1000000000 := by norm_num
    exact_mod_cast this
  have hv3 : (0 : Int) ≤ (digitsValue (a :: t) : Int) := Int.natCast_nonneg _
  have hm := isDigit_ne_minus ha
  have hpl := isDigit_ne_plus ha
  have hsp := isDigit_not_isspace ha
  unfold stoi
  simp only [List.dropWhile_cons, hsp, List.head?_cons, Option.some.injEq, hm, hpl, or_self,
    if_false, htw, INT_MIN, INT_MAX, Bool.false_eq_true, reduceCtorEq, decide_False]
  rw [if_neg (by omega)]

theorem stoi_isDigits12 {ds : List Char} (h : isDigits12 ds = true) :
    stoi ds = some (digitsValue ds : Int) := by
  simp only [isDigits12, isDigits, Bool.or_eq_true, Bool.and_eq_true, beq_iff_eq,
    List.all_eq_true] at h
  rcases h with ⟨hl, hd⟩ | ⟨hl, hd⟩
  · exact stoi_digits (by rintro rfl; simp at hl) hd (by omega)
  · exact stoi_digits (by rintro rfl; simp at hl) hd (by omega)

theorem stoi_isDigits4 {ds : List Char} (h : isDigits 4 ds = true) :
    stoi ds = some (digitsValue ds : Int) := by
  simp only [isDigits, Bool.and_eq_true, beq_iff_eq, List.all_eq_true] at h
  exact stoi_digits (by rintro rfl; simp at h) h.2 (by omega)

theorem readFields_toSmatch (now : tm) {p : DTParts} (h : p.wf = true) :
    readFields now p.toSmatch = some (p.values (now.tm_year + 1900)) := by
  obtain ⟨year, mo, d, hh, mi, second⟩ := p
  simp only [DTParts.wf, Bool.and_eq_true] at h
  obtain ⟨⟨⟨⟨⟨hy, hmo⟩, hd⟩, hhh⟩, hmi⟩, hs⟩ := h
  cases year <;> cases second <;>
    simp_all [readFields, DTParts.toSmatch, smatch.matched, smatch.str, D_Y, D_M, D_D, T_H, T_M,
      T_S, stoi_isDigits12, stoi_isDigits4, DTParts.values]

/-! ## The first match is the greedy one -/

theorem isDigits12_cases {ds : List Char} (h : isDigits12 ds = true) :
    (∃ a, ds = [a] ∧ a.isDigit = true) ∨
      (∃ a b, ds = [a, b] ∧ a.isDigit = true ∧ b.isDigit = true) := by
  simp only [isDigits12, isDigits, Bool.or_eq_true, Bool.and_eq_true, beq_iff_eq,
    List.all_eq_true] at h
  rcases h with ⟨hl, hd⟩ | ⟨hl, hd⟩
  · obtain ⟨a, rfl⟩ := List.length_eq_one.mp hl
    exact Or.inl ⟨a, rfl, hd a (by simp)⟩
  · obtain ⟨a, b, rfl⟩ := List.length_eq_two.mp hl
    exact Or.inr ⟨a, b, rfl, hd a (by simp), hd b (by simp)⟩

theorem isDigits4_cases {ds : List Char} (h : isDigits 4 ds = true) :
    ∃ a b c d, ds = [a, b, c, d] ∧ a.isDigit = true ∧ b.isDigit = true ∧
      c.isDigit = true ∧ d.isDigit = true := by
  simp only [isDigits, Bool.and_eq_true, beq_iff_eq, List.all_eq_true] at h
  obtain ⟨hl, hd⟩ := h
  match ds, hl with
  | [a, b, c, d], _ =>
    exact ⟨a, b, c, d, rfl, hd a (by simp), hd b (by simp), hd c (by simp), hd d (by simp)⟩

theorem run_group_digits12_sep (i : Nat) (sep : Char) (tail : Regex) (hsep : sep.isDigit = false)
    {ds : List Char} (hds : isDigits12 ds = true) (pos : Nat) (xs : List Char) (c : smatch) :
    (Regex.seq (Regex.group i (Regex.rep Regex.digit 1 2)) (Regex.seq (Regex.chr sep) tail)).run
        ⟨pos, ds ++ sep :: xs, c⟩ =
      tail.run ⟨pos + ds.length + 1, xs, c.set i (some ds)⟩ := by
  rcases isDigits12_cases hds with ⟨a, rfl, ha⟩ | ⟨a, b, rfl, ha, hb⟩
  · simp [run_seq, run_group, run_opt, run_eps, Regex.rep, Regex.run, ha, hsep]
  · have hb' : b ≠ sep := by rintro rfl; simp [hb] at hsep
    have e : pos + 1 + 1 - pos = 2 := by omega
    simp [run_seq, run_group, run_opt, run_eps, Regex.rep, Regex.run, ha, hb, hsep, hb', e]

theorem run_minute_second_head (pos : Nat) (c : smatch) {mi : List Char}
    (hmi : isDigits12 mi = true) (second : Option (List Char))
    (hs : ∀ x, second = some x → isDigits12 x = true) (rest : List Char)
    (hmax : maximalFor mi second rest = true) :
    ((Regex.seq (Regex.group 6 (Regex.rep Regex.digit 1 2))
        (Regex.opt (Regex.group 7 (Regex.seq (Regex.chr ':')
          (Regex.group 8 (Regex.rep Regex.digit 1 2)))))).run
        ⟨pos, mi ++ secondText second ++ rest, c⟩).head? =
      some ⟨pos + mi.length + (secondText second).length, rest,
        capSecond second (c.set 6 (some mi))⟩ := by
  unfold maximalFor at hmax
  unfold secondText
  have e2 : pos + 1 + 1 - pos = 2 := by omega
  have e3 : pos + 1 + 1 + 1 - pos = 3 := by omega
  have e4 : pos + 1 + 1 + 1 + 1 - pos = 4 := by omega
  have e5 : pos + 1 + 1 + 1 + 1 + 1 - pos = 5 := by omega
  have f2 : pos + 1 + 1 - (pos + 1) = 1 := by omega
  have f3 : pos + 1 + 1 + 1 - (pos + 1) = 2 := by omega
  have g3 : pos + 1 + 1 + 1 - (pos + 1 + 1) = 1 := by omega
  have g4 : pos + 1 + 1 + 1 + 1 - (pos + 1 + 1) = 2 := by omega
  cases second with
  | none =>
    simp only [Bool.and_eq_true, Bool.or_eq_true, beq_iff_eq, Bool.not_eq_true'] at hmax
    obtain ⟨hm1, hm2⟩ := hmax
    rcases isDigits12_cases hmi with ⟨a, rfl, ha⟩ | ⟨a, b, rfl, ha, hb⟩
    · simp only [List.length_singleton, OfNat.one_ne_ofNat, false_or] at hm1
      match rest, hm1, hm2 with
      | [], _, _ =>
        simp [run_seq, run_group, run_opt, run_eps, Regex.rep, Regex.run, ha, capSecond]
      | [r], h1, _ =>
        simp only [startsWithDigit] at h1
        by_cases hr : r = ':' <;>
          simp [run_seq, run_group, run_opt, run_eps, Regex.rep, Regex.run, ha, capSecond, h1, hr]
      | r :: r2 :: rs, h1, h2 =>
        simp only [startsWithDigit] at h1
        simp only [startsWithSecond, Bool.and_eq_false_imp, beq_iff_eq] at h2
        by_cases hr : r = ':'
        · have h3 := h2 hr
          simp [run_seq, run_group, run_opt, run_eps, Regex.rep, Regex.run, ha, capSecond, h1,
            hr, h3]
        · simp [run_seq, run_group, run_opt, run_eps, Regex.rep, Regex.run, ha, capSecond, h1,
            hr]
    · match rest, hm2 with
      | [], _ =>
        simp [run_seq, run_group, run_opt, run_eps, Regex.rep, Regex.run, ha, hb, capSecond, e2]
      | [r], _ =>
        by_cases hr : r = ':' <;>
          simp [run_seq, run_group, run_opt, run_eps, Regex.rep, Regex.run, ha, hb, capSecond,
            hr, e2]
      | r :: r2 :: rs, h2 =>
        simp only [startsWithSecond, Bool.and_eq_false_imp, beq_iff_eq] at h2
        by_cases hr : r = ':'
        · have h3 := h2 hr
          simp [run_seq, run_group, run_opt, run_eps, Regex.rep, Regex.run, ha, hb, capSecond,
            hr, h3, e2]
        · simp [run_seq, run_group, run_opt, run_eps, Regex.rep, Regex.run, ha, hb, capSecond,
            hr, e2]
  | some s =>
    simp only [Bool.or_eq_true, beq_iff_eq, Bool.not_eq_true'] at hmax
    have hcol : ':'.isDigit = false := by decide
    rcases isDigits12_cases (hs s rfl) with ⟨x, rfl, hx⟩ | ⟨x, y, rfl, hx, hy⟩
    · simp only [List.length_singleton, OfNat.one_ne_ofNat, false_or] at hmax
      match rest, hmax with
      | [], _ =>
        rcases isDigits12_cases hmi with ⟨a, rfl, ha⟩ | ⟨a, b, rfl, ha, hb⟩
        · simp [run_seq, run_group, run_opt, run_eps, Regex.rep, Regex.run, ha, capSecond, hx,
            hcol, f2, e3]
        · simp [run_seq, run_group, run_opt, run_eps, Regex.rep, Regex.run, ha, hb, capSecond,
            hx, hcol, e2, g3, e4]
      | r :: rs, h1 =>
        simp only [startsWithDigit] at h1
        rcases isDigits12_cases hmi with ⟨a, rfl, ha⟩ | ⟨a, b, rfl, ha, hb⟩
        · simp [run_seq, run_group, run_opt, run_eps, Regex.rep, Regex.run, ha, capSecond, hx,
            hcol, h1, f2, e3]
        · simp [run_seq, run_group, run_opt, run_eps, Regex.rep, Regex.run, ha, hb, capSecond,
            hx, hcol, h1, e2, g3, e4]
    · rcases isDigits12_cases hmi with ⟨a, rfl, ha⟩ | ⟨a, b, rfl, ha, hb⟩
      · simp [run_seq, run_group, run_opt, run_eps, Regex.rep, Regex.run, ha, capSecond, hx, hy,
          hcol, f2, f3, e3, e4]
      · simp [run_seq, run_group, run_opt, run_eps, Regex.rep, Regex.run, ha, hb, capSecond, hx,
          hy, hcol, e2, g3, g4, e4, e5]

theorem run_year_none (pos : Nat) (c : smatch) {mo : List Char} (hmo : isDigits12 mo = true)
    (xs : List Char) :
    (Regex.group 1 (Regex.seq (Regex.group 2 (Regex.rep Regex.digit 4 4)) (Regex.chr '-'))).run
      ⟨pos, mo ++ '-' :: xs, c⟩ = [] := by
  have hminus : '-'.isDigit = false := by decide
  rcases isDigits12_cases hmo with ⟨a, rfl, ha⟩ | ⟨a, b, rfl, ha, hb⟩
  · simp [run_seq, run_group, run_eps, Regex.rep, Regex.run, ha, hminus]
  · simp [run_seq, run_group, run_eps, Regex.rep, Regex.run, ha, hb, hminus]

theorem run_year_some (pos : Nat) (c : smatch) {y : List Char} (hy : isDigits 4 y = true)
    (xs : List Char) :
    (Regex.group 1 (Regex.seq (Regex.group 2 (Regex.rep Regex.digit 4 4)) (Regex.chr '-'))).run
      ⟨pos, y ++ '-' :: xs, c⟩ = [⟨pos + y.length + 1, xs, capYear (some y) c⟩] := by
  obtain ⟨a, b, d, e, rfl, ha, hb, hd, he⟩ := isDigits4_cases hy
  have e4 : pos + 1 + 1 + 1 + 1 - pos = 4 := by omega
  have e5 : pos + 1 + 1 + 1 + 1 + 1 - pos = 5 := by omega
  simp [run_seq, run_group, run_eps, Regex.rep, Regex.run, ha, hb, hd, he, capYear, e4, e5]

theorem run_bol_zero (xs : List Char) (c : smatch) :
    Regex.bol.run ⟨0, xs, c⟩ = [⟨0, xs, c⟩] := rfl

theorem run_re_head {p : DTParts} (hwf : p.wf = true) {rest : List Char}
    (hmax : p.maximal rest = true) (caps : smatch) :
    (re.run ⟨0, p.text ++ rest, caps⟩).head? =
      some ⟨p.text.length, rest, p.captures caps⟩ := by
  obtain ⟨year, mo, d, h, mi, second⟩ := p
  simp only [DTParts.wf, Bool.and_eq_true] at hwf
  obtain ⟨⟨⟨⟨⟨hy, hmo⟩, hd⟩, hh⟩, hmi⟩, hs⟩ := hwf
  simp only [DTParts.maximal] at hmax
  have hs' : ∀ x, second = some x → isDigits12 x = true := by
    rintro x rfl; exact hs
  have hfin := fun (pos : Nat) (c : smatch) => run_minute_second_head pos c hmi second hs' rest hmax
  have hsep1 : '-'.isDigit = false := by decide
  have hsep2 : ' '.isDigit = false := by decide
  have hsep3 : ':'.isDigit = false := by decide
  have htail : ∀ (pos : Nat) (c : smatch),
      ((Regex.seq (Regex.group 3 (Regex.rep Regex.digit 1 2)) <|
        Regex.seq (Regex.chr '-') <|
        Regex.seq (Regex.group 4 (Regex.rep Regex.digit 1 2)) <|
        Regex.seq (Regex.chr ' ') <|
        Regex.seq (Regex.group 5 (Regex.rep Regex.digit 1 2)) <|
        Regex.seq (Regex.chr ':') <|
        Regex.seq (Regex.group 6 (Regex.rep Regex.digit 1 2)) <|
        Regex.opt (Regex.group 7 (Regex.seq (Regex.chr ':')
          (Regex.group 8 (Regex.rep Regex.digit 1 2))))).run
        ⟨pos, mo ++ '-' :: (d ++ ' ' :: (h ++ ':' :: (mi ++ secondText second ++ rest))),
          c⟩).head? =
      some ⟨pos + mo.length + 1 + d.length + 1 + h.length + 1 + mi.length +
        (secondText second).length, rest,
        capSecond second ((((c.set 3 (some mo)).set 4 (some d)).set 5 (some h)).set 6
          (some mi))⟩ := by
    intro pos c
    rw [run_group_digits12_sep 3 '-' _ hsep1 hmo, run_group_digits12_sep 4 ' ' _ hsep2 hd,
      run_group_digits12_sep 5 ':' _ hsep3 hh, hfin]
  cases year with
  | none =>
    have e : (⟨none, mo, d, h, mi, second⟩ : DTParts).text ++ rest =
        mo ++ '-' :: (d ++ ' ' :: (h ++ ':' :: (mi ++ secondText second ++ rest))) := by
      simp [DTParts.text, yearText]
    rw [e, re, run_seq, run_bol_zero, List.flatMap_singleton, run_seq, run_opt,
      run_year_none 0 caps hmo, List.nil_append, List.flatMap_singleton, htail]
    cases second <;>
      simp [DTParts.captures, capYear, DTParts.text, yearText, secondText] <;>
      omega
  | some y =>
    have e : (⟨some y, mo, d, h, mi, second⟩ : DTParts).text ++ rest =
        y ++ '-' :: (mo ++ '-' :: (d ++ ' ' :: (h ++ ':' :: (mi ++ secondText second ++ rest)))) := by
      simp [DTParts.text, yearText]
    rw [e, re, run_seq, run_bol_zero, List.flatMap_singleton, run_seq, run_opt,
      run_year_some 0 caps hy, List.flatMap_append, List.flatMap_singleton,
      List.head?_append, htail]
    cases second <;>
      simp [DTParts.captures, DTParts.text, yearText, secondText] <;>
      omega

theorem toSmatch_eq (p : DTParts) : p.toSmatch = some p.text :: p.toSmatch.tail := rfl

/-- On a text written from well-formed parts, followed by anything that does
not extend them, the search captures exactly the parts. -/
theorem regex_search_parts {p : DTParts} (hwf : p.wf = true) {rest : List Char}
    (hmax : p.maximal rest = true) : regex_search (p.text ++ rest) re = p.toSmatch := by
  have h := run_re_head hwf hmax (List.replicate (re.mark_count + 1) none)
  rw [regex_search_re, List.headD_eq_head?_getD, matchesAt, List.head?_map, List.drop_zero, h]
  simp only [Option.map_some', Option.getD_some, captures_init, Nat.sub_zero, List.take_left]
  exact (toSmatch_eq p).symm

theorem extendDigits_spec {ds : List Char} (h : isDigits12 ds = true) (rest : List Char) :
    isDigits12 (extendDigits ds rest).1 = true ∧
      (extendDigits ds rest).1 ++ (extendDigits ds rest).2 = ds ++ rest ∧
      (((extendDigits ds rest).1.length == 2) ||
        !startsWithDigit (extendDigits ds rest).2) = true := by
  rcases isDigits12_cases h with ⟨a, rfl, ha⟩ | ⟨a, b, rfl, ha, hb⟩
  · cases rest with
    | nil => simp [extendDigits, startsWithDigit, h]
    | cons r rs =>
      by_cases hr : r.isDigit = true
      · simp [extendDigits, startsWithDigit, hr, isDigits12, isDigits, ha]
      · simp [extendDigits, startsWithDigit, hr, h]
  · simp [extendDigits, h]

theorem extend_spec {p : DTParts} (hwf : p.wf = true) (rest : List Char) :
    (p.extend rest).1.wf = true ∧ (p.extend rest).1.maximal (p.extend rest).2 = true ∧
      (p.extend rest).1.text ++ (p.extend rest).2 = p.text ++ rest := by
  obtain ⟨year, mo, d, h, mi, second⟩ := p
  simp only [DTParts.wf, Bool.and_eq_true] at hwf
  obtain ⟨⟨⟨⟨⟨hy, hmo⟩, hd⟩, hh⟩, hmi⟩, hs⟩ := hwf
  cases second with
  | some s =>
    obtain ⟨h1, h2, h3⟩ := extendDigits_spec hs rest
    refine ⟨?_, ?_, ?_⟩
    · simp [DTParts.extend, DTParts.wf, hy, hmo, hd, hh, hmi, h1]
    · simpa [DTParts.extend, DTParts.maximal, maximalFor] using h3
    · simp [DTParts.extend, DTParts.text, h2]
  | none =>
    obtain ⟨h1, h2, h3⟩ := extendDigits_spec hmi rest
    generalize hm1 : (extendDigits mi rest).1 = mi' at h1 h2 h3
    generalize hr1 : (extendDigits mi rest).2 = r1 at h2 h3
    by_cases hsec : startsWithSecond r1 = true
    · match r1, hsec with
      | c :: x :: rs, hsec =>
        simp only [startsWithSecond, Bool.and_eq_true, beq_iff_eq] at hsec
        obtain ⟨rfl, hx⟩ := hsec
        have hx12 : isDigits12 [x] = true := by simp [isDigits12, isDigits, hx]
        obtain ⟨k1, k2, k3⟩ := extendDigits_spec hx12 rs
        refine ⟨?_, ?_, ?_⟩
        · simp [DTParts.extend, hr1, hm1, startsWithSecond, hx, DTParts.wf, hy, hmo, hd, hh, h1, k1]
        · simpa [DTParts.extend, hr1, hm1, startsWithSecond, hx, DTParts.maximal, maximalFor] using k3
        · simp only [DTParts.extend, hr1, hm1, startsWithSecond, hx, DTParts.text, beq_self_eq_true,
            Bool.and_self, if_true, List.drop_succ_cons, List.drop_zero, List.take_succ_cons,
            List.take_zero, secondText_some, secondText_none, List.append_nil]
          simp only [List.append_assoc, List.cons_append, k2]
          simp only [← h2]
          simp
    · simp only [Bool.not_eq_true] at hsec
      refine ⟨?_, ?_, ?_⟩
      · simp [DTParts.extend, hr1, hm1, hsec, DTParts.wf, hy, hmo, hd, hh, h1]
      · simp only [Bool.or_eq_true, beq_iff_eq, Bool.not_eq_true'] at h3
        simp [DTParts.extend, hr1, hm1, hsec, DTParts.maximal, maximalFor, h3]
      · simp [DTParts.extend, hr1, hm1, hsec, DTParts.text, h2]

/-- A non-empty result of the search holds the sub-matches of the longest
reading of the text. -/
theorem regex_search_re_maximal (text : List Char) :
    regex_search text re = [] ∨
      ∃ (p : DTParts) (rest : List Char), p.wf = true ∧ p.maximal rest = true ∧
        text = p.text ++ rest ∧ regex_search text re = p.toSmatch := by
  rcases regex_search_re_cases text with h | ⟨p, rest, hwf, htext, -⟩
  · exact Or.inl h
  · obtain ⟨h1, h2, h3⟩ := extend_spec hwf rest
    refine Or.inr ⟨(p.extend rest).1, (p.extend rest).2, h1, h2, by rw [h3, htext], ?_⟩
    rw [htext, ← h3]
    exact regex_search_parts h1 h2

/-! ## Lemmas on the handler of the date-time field -/

theorem validValues_iff (v : DateTime) : validValues v = true ↔ inRange v := by
  simp only [validValues, inRange, Bool.and_eq_true, decide_eq_true_eq]
  tauto

theorem givenValues_toSmatch (now : tm) (p : DTParts) :
    givenValues now p.toSmatch = p.values (now.tm_year + 1900) := by
  obtain ⟨year, mo, d, h, mi, second⟩ := p
  cases year <;> cases second <;>
    simp [givenValues, DTParts.toSmatch, DTParts.values, smatch.matched, smatch.str, D_Y, D_M,
      D_D, T_H, T_M, T_S]

theorem length_toSmatch (p : DTParts) : p.toSmatch.length = DT_EXPECTED := rfl

theorem interpret_nil (env : DataRefEnv) (now : tm) {text : List Char}
    (h : regex_search text re = []) : interpret env now text = some (false, []) := by
  simp [interpret, h, DT_EXPECTED]

theorem interpret_toSmatch (env : DataRefEnv) (now : tm) {text : List Char} {p : DTParts}
    (hwf : p.wf = true) (h : regex_search text re = p.toSmatch) :
    interpret env now text =
      some (if validValues (p.values (now.tm_year + 1900)) then
        (true, sendDate env ((p.values (now.tm_year + 1900)).yyyy * 10000 +
            (p.values (now.tm_year + 1900)).mm * 100 + (p.values (now.tm_year + 1900)).dd) ++
          sendTime env ((p.values (now.tm_year + 1900)).HH * 10000 +
            (p.values (now.tm_year + 1900)).MM * 100 + (p.values (now.tm_year + 1900)).SS))
      else (false, [])) := by
  simp only [interpret, h, length_toSmatch, if_true, readFields_toSmatch now hwf]
  by_cases hv : validValues (p.values (now.tm_year + 1900)) = true
  · simp [hv]
  · simp [hv]

theorem focus_not_mem_send (env : DataRefEnv) (a b : Int) :
    Call.SetKeyboardFocus ∉ sendDate env a ++ sendTime env b := by
  simp only [sendDate, sendTime]
  cases env.simDateValid <;> cases env.simDateBinds <;> cases env.simTimeValid <;>
    cases env.simTimeBinds <;> simp

/-- What the handler does for its own widget, by the result of the search. -/
theorem handler_own (self : XPWidgetID) (env : DataRefEnv) (now : tm) (text : List Char) :
    LTCapDateTime.MsgTextFieldChanged self env now self text =
      some (true,
        if (regex_search text re).length = DT_EXPECTED ∧
            inRange (givenValues now (regex_search text re)) then
          sendDate env ((givenValues now (regex_search text re)).yyyy * 10000 +
              (givenValues now (regex_search text re)).mm * 100 +
              (givenValues now (regex_search text re)).dd) ++
            sendTime env ((givenValues now (regex_search text re)).HH * 10000 +
              (givenValues now (regex_search text re)).MM * 100 +
              (givenValues now (regex_search text re)).SS)
        else [Call.SetKeyboardFocus]) := by
  rcases regex_search_re_cases text with h | ⟨p, rest, hwf, -, h⟩
  · simp [LTCapDateTime.MsgTextFieldChanged, interpret_nil env now h, h, DT_EXPECTED]
  · simp only [LTCapDateTime.MsgTextFieldChanged, ne_eq, not_true_eq_false, if_false,
      interpret_toSmatch env now hwf h, h, length_toSmatch, givenValues_toSmatch, true_and]
    by_cases hv : validValues (p.values (now.tm_year + 1900)) = true
    · have hr := (validValues_iff _).mp hv
      simp [hv, hr]
    · have hr : ¬ inRange (p.values (now.tm_year + 1900)) := fun k => hv ((validValues_iff _).mpr k)
      simp [hv, hr]

theorem accepts_iff (self : XPWidgetID) (env : DataRefEnv) (now : tm) (text : List Char) :
    accepts self env now text = true ↔ interpretable now text := by
  unfold accepts interpretable
  rw [handler_own]
  by_cases h : (regex_search text re).length = DT_EXPECTED ∧
      inRange (givenValues now (regex_search text re))
  · simp only [h, and_self, if_true, iff_true]
    have := focus_not_mem_send env
      ((givenValues now (regex_search text re)).yyyy * 10000 +
        (givenValues now (regex_search text re)).mm * 100 +
        (givenValues now (regex_search text re)).dd)
      ((givenValues now (regex_search text re)).HH * 10000 +
        (givenValues now (regex_search text re)).MM * 100 +
        (givenValues now (regex_search text re)).SS)
    simpa using this
  · simp [h]

/-! ## The date-time field: claims C1 to C5 -/

theorem getLast?_append_two (X : List Char) (a c : Char) :
    (X ++ [a, c]).getLast? = some c := by
  rw [show X ++ [a, c] = (X ++ [a]) ++ [c] by simp]
  exact List.getLast?_concat _

theorem dateTimeForm_getLast {t : List Char} (h : dateTimeForm t) :
    ∃ c, t.getLast? = some c ∧ c.isDigit = true := by
  obtain ⟨⟨year, mo, d, hh, mi, second⟩, hwf, rfl⟩ := h
  simp only [DTParts.wf, Bool.and_eq_true] at hwf
  obtain ⟨⟨⟨⟨⟨-, -⟩, -⟩, -⟩, hmi⟩, hs⟩ := hwf
  cases second with
  | none =>
    rcases isDigits12_cases hmi with ⟨a, rfl, ha⟩ | ⟨a, b, rfl, ha, hb⟩
    · refine ⟨a, ?_, ha⟩
      have e : (⟨year, mo, d, hh, [a], none⟩ : DTParts).text =
          (yearText year ++ mo ++ '-' :: d ++ ' ' :: hh) ++ [':', a] := by
        simp [DTParts.text]
      rw [e]; exact getLast?_append_two _ _ _
    · refine ⟨b, ?_, hb⟩
      have e : (⟨year, mo, d, hh, [a, b], none⟩ : DTParts).text =
          (yearText year ++ mo ++ '-' :: d ++ ' ' :: hh ++ [':']) ++ [a, b] := by
        simp [DTParts.text]
      rw [e]; exact getLast?_append_two _ _ _
  | some s =>
    rcases isDigits12_cases hs with ⟨a, rfl, ha⟩ | ⟨a, b, rfl, ha, hb⟩
    · refine ⟨a, ?_, ha⟩
      have e : (⟨year, mo, d, hh, mi, some [a]⟩ : DTParts).text =
          (yearText year ++ mo ++ '-' :: d ++ ' ' :: hh ++ ':' :: mi) ++ [':', a] := by
        simp [DTParts.text]
      rw [e]; exact getLast?_append_two _ _ _
    · refine ⟨b, ?_, hb⟩
      have e : (⟨year, mo, d, hh, mi, some [a, b]⟩ : DTParts).text =
          (yearText year ++ mo ++ '-' :: d ++ ' ' :: hh ++ ':' :: mi ++ [':']) ++ [a, b] := by
        simp [DTParts.text]
      rw [e]; exact getLast?_append_two _ _ _

/-- C1, as stated, fails: the text `1-1 1:1x` is accepted (the date and the
time are written), yet it does not have the date-time form as a whole. -/
theorem C1_trailing_text_accepted :
    LTCapDateTime.MsgTextFieldChanged 1 ⟨true, true, true, true⟩ ⟨0, 0, 0, 1, 0, 118, 0, 0, 0⟩ 1
        ['1', '-', '1', ' ', '1', ':', '1', 'x'] =
      some (true, [Call.simDateSet 20180101, Call.simTimeSet 10100]) ∧
    accepts 1 ⟨true, true, true, true⟩ ⟨0, 0, 0, 1, 0, 118, 0, 0, 0⟩
        ['1', '-', '1', ' ', '1', ':', '1', 'x'] = true ∧
    ¬ dateTimeForm ['1', '-', '1', ' ', '1', ':', '1', 'x'] := by
  refine ⟨by decide, by decide, ?_⟩
  intro h
  obtain ⟨c, hc, hd⟩ := dateTimeForm_getLast h
  simp only [List.getLast?, List.getLast, Option.some.injEq] at hc
  subst hc
  revert hd
  decide

/-- C1, amended: a text the date-time field accepts begins with a text of the
form `[YYYY-][M]M-[D]D [H]H:[M]M[:[S]S]`, with nothing before it. -/
theorem C1_accepted_begins_with_form (self : XPWidgetID) (env : DataRefEnv) (now : tm)
    (text : List Char) (h : accepts self env now text = true) :
    ∃ pre rest : List Char, text = pre ++ rest ∧ dateTimeForm pre := by
  have hi := (accepts_iff self env now text).mp h
  rcases regex_search_re_cases text with h0 | ⟨p, rest, hwf, htext, -⟩
  · rw [interpretable, h0] at hi
    exact absurd hi.1 (by decide)
  · exact ⟨p.text, rest, htext, p, hwf, rfl⟩

/-- The amended C1 at the accepted text `2018-07-04 12:30:15`. -/
theorem C1_accepted_begins_with_form_witness :
    accepts 1 ⟨true, true, true, true⟩ ⟨0, 0, 0, 1, 0, 118, 0, 0, 0⟩
        ['2', '0', '1', '8', '-', '0', '7', '-', '0', '4', ' ', '1', '2', ':', '3', '0', ':',
          '1', '5'] = true ∧
      ∃ pre rest : List Char,
        ['2', '0', '1', '8', '-', '0', '7', '-', '0', '4', ' ', '1', '2', ':', '3', '0', ':',
          '1', '5'] = pre ++ rest ∧ dateTimeForm pre :=
  ⟨by decide, C1_accepted_begins_with_form 1 ⟨true, true, true, true⟩
    ⟨0, 0, 0, 1, 0, 118, 0, 0, 0⟩ _ (by decide)⟩

/-- C2: a text that matches the date-time pattern is accepted exactly when
2000 <= year < 2999, 1 <= month <= 12, 1 <= day <= 31, 0 <= hour <= 23,
0 <= minute <= 59 and 0 <= second <= 59, the year being the given year or else
the current year and the second the given second or else 0; the day is
compared with 31 whatever the month. -/
theorem C2_accepted_iff_in_range (self : XPWidgetID) (env : DataRefEnv) (now : tm)
    (text : List Char) (hmatch : (regex_search text re).length = DT_EXPECTED) :
    accepts self env now text = true ↔
      2000 ≤ (givenValues now (regex_search text re)).yyyy ∧
      (givenValues now (regex_search text re)).yyyy < 2999 ∧
      1 ≤ (givenValues now (regex_search text re)).mm ∧
      (givenValues now (regex_search text re)).mm ≤ 12 ∧
      1 ≤ (givenValues now (regex_search text re)).dd ∧
      (givenValues now (regex_search text re)).dd ≤ 31 ∧
      0 ≤ (givenValues now (regex_search text re)).HH ∧
      (givenValues now (regex_search text re)).HH ≤ 23 ∧
      0 ≤ (givenValues now (regex_search text re)).MM ∧
      (givenValues now (regex_search text re)).MM ≤ 59 ∧
      0 ≤ (givenValues now (regex_search text re)).SS ∧
      (givenValues now (regex_search text re)).SS ≤ 59 := by
  rw [accepts_iff, interpretable]
  exact ⟨fun h => h.2, fun h => ⟨hmatch, h⟩⟩

/-- C2 at the text `02-31 10:20` in the year 2018: it matches, its values
(2018, 2, 31, 10, 20, 0) are in range, and it is accepted although February
has no day 31. -/
theorem C2_accepted_iff_in_range_witness :
    (regex_search ['0', '2', '-', '3', '1', ' ', '1', '0', ':', '2', '0'] re).length =
        DT_EXPECTED ∧
      givenValues ⟨0, 0, 0, 1, 0, 118, 0, 0, 0⟩
        (regex_search ['0', '2', '-', '3', '1', ' ', '1', '0', ':', '2', '0'] re) =
        ⟨2018, 2, 31, 10, 20, 0⟩ ∧
      accepts 1 ⟨true, true, true, true⟩ ⟨0, 0, 0, 1, 0, 118, 0, 0, 0⟩
        ['0', '2', '-', '3', '1', ' ', '1', '0', ':', '2', '0'] = true :=
  ⟨by decide, by decide,
    (C2_accepted_iff_in_range 1 ⟨true, true, true, true⟩ ⟨0, 0, 0, 1, 0, 118, 0, 0, 0⟩
      ['0', '2', '-', '3', '1', ' ', '1', '0', ':', '2', '0'] (by decide)).mpr (by decide)⟩

/-- C3: for an accepted text with year y, month m, day d, hour H, minute M and
second S the handler sets the sim-date dataRef to y*10000 + m*100 + d and the
sim-time dataRef to H*10000 + M*100 + S, each provided its dataRef is valid or
can be bound (it is bound first when it is not valid); it makes no other call
and returns true. -/
theorem C3_accepted_sets_date_and_time (self : XPWidgetID) (env : DataRefEnv) (now : tm)
    (text : List Char) (h : accepts self env now text = true) :
    LTCapDateTime.MsgTextFieldChanged self env now self text =
      some (true,
        (if env.simDateValid then
            [Call.simDateSet ((givenValues now (regex_search text re)).yyyy * 10000 +
              (givenValues now (regex_search text re)).mm * 100 +
              (givenValues now (regex_search text re)).dd)]
          else if env.simDateBinds then
            [Call.simDateSetDataRef,
              Call.simDateSet ((givenValues now (regex_search text re)).yyyy * 10000 +
                (givenValues now (regex_search text re)).mm * 100 +
                (givenValues now (regex_search text re)).dd)]
          else [Call.simDateSetDataRef]) ++
        (if env.simTimeValid then
            [Call.simTimeSet ((givenValues now (regex_search text re)).HH * 10000 +
              (givenValues now (regex_search text re)).MM * 100 +
              (givenValues now (regex_search text re)).SS)]
          else if env.simTimeBinds then
            [Call.simTimeSetDataRef,
              Call.simTimeSet ((givenValues now (regex_search text re)).HH * 10000 +
                (givenValues now (regex_search text re)).MM * 100 +
                (givenValues now (regex_search text re)).SS)]
          else [Call.simTimeSetDataRef])) := by
  have hi := (accepts_iff self env now text).mp h
  rw [interpretable] at hi
  rw [handler_own, if_pos hi]
  simp only [sendDate, sendTime]
  cases env.simDateValid <;> cases env.simDateBinds <;> cases env.simTimeValid <;>
    cases env.simTimeBinds <;> simp

/-- C3 at the text `2018-07-04 12:30:15`, the date dataRef valid and the time
dataRef still to be bound: date 20180704 and time 123015 are set. -/
theorem C3_accepted_sets_date_and_time_witness :
    accepts 1 ⟨true, false, false, true⟩ ⟨0, 0, 0, 1, 0, 118, 0, 0, 0⟩
        ['2', '0', '1', '8', '-', '0', '7', '-', '0', '4', ' ', '1', '2', ':', '3', '0', ':',
          '1', '5'] = true ∧
      LTCapDateTime.MsgTextFieldChanged 1 ⟨true, false, false, true⟩
        ⟨0, 0, 0, 1, 0, 118, 0, 0, 0⟩ 1
        ['2', '0', '1', '8', '-', '0', '7', '-', '0', '4', ' ', '1', '2', ':', '3', '0', ':',
          '1', '5'] =
      some (true, [Call.simDateSet 20180704, Call.simTimeSetDataRef, Call.simTimeSet 123015]) :=
  ⟨by decide,
    (C3_accepted_sets_date_and_time 1 ⟨true, false, false, true⟩ ⟨0, 0, 0, 1, 0, 118, 0, 0, 0⟩
      ['2', '0', '1', '8', '-', '0', '7', '-', '0', '4', ' ', '1', '2', ':', '3', '0', ':',
        '1', '5'] (by decide)).trans (by decide)⟩

theorem handler_tm_year (self : XPWidgetID) (env : DataRefEnv) (now now' : tm)
    (h : now'.tm_year = now.tm_year) (tw : XPWidgetID) (text : List Char) :
    LTCapDateTime.MsgTextFieldChanged self env now' tw text =
      LTCapDateTime.MsgTextFieldChanged self env now tw text := by
  simp only [LTCapDateTime.MsgTextFieldChanged, interpret, readFields, h]

/-- C4: every text that matches the pattern is written from well-formed parts
`[YYYY-]M-D H:M[:S]`, read as long as possible, followed by a rest; for each
such reading the numbers the handler uses are the decimal values of the digits
typed, the year being `tm_year + 1900` of the current time when `YYYY-` is
left out and the second 0 when `:SS` is left out; and the handler depends on
the current time through `tm_year` only. -/
theorem C4_year_and_second_defaults (self : XPWidgetID) (env : DataRefEnv) (now : tm)
    (text : List Char) (hmatch : (regex_search text re).length = DT_EXPECTED) :
    (∃ (p : DTParts) (rest : List Char),
      p.wf = true ∧ p.maximal rest = true ∧ text = p.text ++ rest) ∧
    (∀ (p : DTParts) (rest : List Char),
      p.wf = true → p.maximal rest = true → text = p.text ++ rest →
      readFields now (regex_search text re) =
        some { yyyy := match p.year with
                 | some y => (digitsValue y : Int)
                 | none => now.tm_year + 1900
               mm := digitsValue p.month
               dd := digitsValue p.day
               HH := digitsValue p.hour
               MM := digitsValue p.minute
               SS := match p.second with
                 | some s => (digitsValue s : Int)
                 | none => 0 }) ∧
    (∀ (now' : tm) (tw : XPWidgetID), now'.tm_year = now.tm_year →
      LTCapDateTime.MsgTextFieldChanged self env now' tw text =
        LTCapDateTime.MsgTextFieldChanged self env now tw text) := by
  refine ⟨?_, ?_, ?_⟩
  · rcases regex_search_re_maximal text with h0 | ⟨p, rest, hwf, hmax, htext, -⟩
    · rw [h0] at hmatch
      exact absurd hmatch (by decide)
    · exact ⟨p, rest, hwf, hmax, htext⟩
  · intro p rest hwf hmax htext
    rw [htext, regex_search_parts hwf hmax, readFields_toSmatch now hwf]
    rfl
  · intro now' tw h
    exact handler_tm_year self env now now' h tw text

/-- C4 at the text `7-4 9:05` in the year 2018: the values used are 2018, 7,
4, 9, 5 and 0. -/
theorem C4_year_and_second_defaults_witness :
    (regex_search ['7', '-', '4', ' ', '9', ':', '0', '5'] re).length = DT_EXPECTED ∧
      readFields ⟨30, 59, 23, 4, 6, 118, 3, 184, 0⟩
        (regex_search ['7', '-', '4', ' ', '9', ':', '0', '5'] re) =
        some ⟨2018, 7, 4, 9, 5, 0⟩ :=
  ⟨by decide,
    ((C4_year_and_second_defaults 1 ⟨true, true, true, true⟩ ⟨30, 59, 23, 4, 6, 118, 3, 184, 0⟩
      ['7', '-', '4', ' ', '9', ':', '0', '5'] (by decide)).2.1
      ⟨none, ['7'], ['4'], ['9'], ['0', '5'], none⟩ [] (by decide) (by decide) (by decide)).trans
      (by decide)⟩

/-- C5: for a text from its own widget that cannot be interpreted (no pattern
match, or a value out of range) the handler writes neither dataRef, sets the
keyboard focus and returns true; for an accepted text it returns true without
setting the keyboard focus; for another text widget it returns false and does
nothing. -/
theorem C5_focus_and_return_value (self : XPWidgetID) (env : DataRefEnv) (now : tm)
    (textWidget : XPWidgetID) (text : List Char) :
    (textWidget ≠ self →
      LTCapDateTime.MsgTextFieldChanged self env now textWidget text = some (false, [])) ∧
    (textWidget = self → ¬ interpretable now text →
      LTCapDateTime.MsgTextFieldChanged self env now textWidget text =
        some (true, [Call.SetKeyboardFocus])) ∧
    (textWidget = self → interpretable now text →
      ∃ calls, LTCapDateTime.MsgTextFieldChanged self env now textWidget text =
        some (true, calls) ∧ Call.SetKeyboardFocus ∉ calls) := by
  refine ⟨?_, ?_, ?_⟩
  · intro h
    simp [LTCapDateTime.MsgTextFieldChanged, h]
  · rintro rfl h
    rw [interpretable] at h
    rw [handler_own, if_neg h]
  · rintro rfl h
    rw [interpretable] at h
    rw [handler_own, if_pos h]
    exact ⟨_, rfl, focus_not_mem_send env _ _⟩

/-- C5 at three inputs: a text from another widget, the text `13-1 0:0` whose
month is out of range, and the accepted text `12-1 0:0`. -/
theorem C5_focus_and_return_value_witness :
    LTCapDateTime.MsgTextFieldChanged 1 ⟨true, true, true, true⟩ ⟨0, 0, 0, 1, 0, 118, 0, 0, 0⟩ 2
        ['1', '2', '-', '1', ' ', '0', ':', '0'] = some (false, []) ∧
      LTCapDateTime.MsgTextFieldChanged 1 ⟨true, true, true, true⟩ ⟨0, 0, 0, 1, 0, 118, 0, 0, 0⟩ 1
        ['1', '3', '-', '1', ' ', '0', ':', '0'] = some (true, [Call.SetKeyboardFocus]) ∧
      ∃ calls, LTCapDateTime.MsgTextFieldChanged 1 ⟨true, true, true, true⟩
        ⟨0, 0, 0, 1, 0, 118, 0, 0, 0⟩ 1 ['1', '2', '-', '1', ' ', '0', ':', '0'] =
          some (true, calls) ∧ Call.SetKeyboardFocus ∉ calls :=
  ⟨(C5_focus_and_return_value 1 ⟨true, true, true, true⟩ ⟨0, 0, 0, 1, 0, 118, 0, 0, 0⟩ 2
      ['1', '2', '-', '1', ' ', '0', ':', '0']).1 (by decide),
    (C5_focus_and_return_value 1 ⟨true, true, true, true⟩ ⟨0, 0, 0, 1, 0, 118, 0, 0, 0⟩ 1
      ['1', '3', '-', '1', ' ', '0', ':', '0']).2.1 rfl (by decide),
    (C5_focus_and_return_value 1 ⟨true, true, true, true⟩ ⟨0, 0, 0, 1, 0, 118, 0, 0, 0⟩ 1
      ['1', '2', '-', '1', ' ', '0', ':', '0']).2.2 rfl (by decide)⟩

/-! ## The enumeration and the array: claims C7 to C9 -/

theorem enumerator_table :
    namedIndexes.map enumerator = List.range SETTINGS_UI.length := by
  decide!

/-- C7: the array `SETTINGS_UI` has exactly as many entries as the enumeration
has named indexes, `UI_NUMBER_OF_ELEMENTS = NUM_WIDGETS = 99`; the values of
the named indexes are the positions 0 to 98 of the array, each once. -/
theorem C7_enumeration_and_array_same_size :
    UI_NUMBER_OF_ELEMENTS = NUM_WIDGETS ∧ NUM_WIDGETS = 99 ∧ SETTINGS_UI.length = 99 ∧
      namedIndexes.map enumerator = List.range SETTINGS_UI.length := by
  decide!

theorem announced_table :
    namedIndexes.map announcedClasses = SETTINGS_UI.map (fun w => [w.widgetClass]) := by
  decide!

theorem length_namedIndexes : namedIndexes.length = 99 := by decide!

theorem length_SETTINGS_UI : SETTINGS_UI.length = 99 := by decide!

/-- C8: for every named index of `UI_WIDGET_IDX_T`, at position `i` of the
enumeration, the entry of `SETTINGS_UI` at position `i` has the widget class
the name announces, and the name announces no other class: `*_BTN_*` a
Button, `*_TXT_*` and `*_INT_*` a TextField, `*_CAP_*` a Caption, `*_SUB_WND`
a SubWindow and `UI_MAIN_WND` the MainWindow. -/
theorem C8_names_announce_widget_class (i : Nat) (name : String)
    (h : namedIndexes[i]? = some name) :
    enumerator name = i ∧
      ∃ w, SETTINGS_UI[i]? = some w ∧ announcedClasses name = [w.widgetClass] := by
  have hi : i < namedIndexes.length := by
    by_contra hc
    rw [List.getElem?_eq_none (by omega)] at h
    exact absurd h (by simp)
  have hi2 : i < SETTINGS_UI.length := by rw [length_SETTINGS_UI]; rw [length_namedIndexes] at hi; exact hi
  refine ⟨?_, SETTINGS_UI[i], List.getElem?_eq_getElem hi2, ?_⟩
  · have h1 : (namedIndexes.map enumerator)[i]? = some (enumerator name) := by
      rw [List.getElem?_map, h]; rfl
    rw [enumerator_table, List.getElem?_range hi2] at h1
    exact (Option.some.inj h1).symm
  · have h1 : (namedIndexes.map announcedClasses)[i]? = some (announcedClasses name) := by
      rw [List.getElem?_map, h]; rfl
    rw [announced_table, List.getElem?_map, List.getElem?_eq_getElem hi2] at h1
    exact (Option.some.inj h1).symm

/-- C8 at the index `UI_BASICS_TXT_DATETIME`, position 17: a TextField. -/
theorem C8_names_announce_widget_class_witness :
    namedIndexes[17]? = some "UI_BASICS_TXT_DATETIME" ∧
      enumerator "UI_BASICS_TXT_DATETIME" = 17 ∧
      ∃ w, SETTINGS_UI[17]? = some w ∧
        announcedClasses "UI_BASICS_TXT_DATETIME" = [w.widgetClass] :=
  ⟨by decide!, C8_names_announce_widget_class 17 "UI_BASICS_TXT_DATETIME" (by decide!)⟩

/-- C9: in the log-level radio group built by `LTSettingsUI::Enable`, for
every log level L from 0 (`logDEBUG`) to 4 (`logFATAL`) the button at group
index L is the widget of an entry of `SETTINGS_UI` that is a Button whose
caption names level L: 0 Debug, 1 Info, 2 Warning, 3 Error, 4 Fatal. -/
theorem C9_log_level_group_order (L : Nat) (hL : L < 5) :
    ∃ (i : Nat) (w : TFWidgetCreate_t),
      (∀ widgetIds : Nat → XPWidgetID,
        (LTSettingsUI.Enable widgetIds).logLevelGrp[L]? = some (widgetIds i)) ∧
      SETTINGS_UI[i]? = some w ∧ w.widgetClass = xpWidgetClass_Button ∧
      logLevelNames[L]? = some w.descriptor := by
  have h0 : ∃ w, SETTINGS_UI[UI_ADVCD_BTN_LOG_DEBUG]? = some w ∧
      w.widgetClass = xpWidgetClass_Button ∧ w.descriptor = "Debug" := by decide!
  have h1 : ∃ w, SETTINGS_UI[UI_ADVCD_BTN_LOG_INFO]? = some w ∧
      w.widgetClass = xpWidgetClass_Button ∧ w.descriptor = "Info" := by decide!
  have h2 : ∃ w, SETTINGS_UI[UI_ADVCD_BTN_LOG_WARNING]? = some w ∧
      w.widgetClass = xpWidgetClass_Button ∧ w.descriptor = "Warning" := by decide!
  have h3 : ∃ w, SETTINGS_UI[UI_ADVCD_BTN_LOG_ERROR]? = some w ∧
      w.widgetClass = xpWidgetClass_Button ∧ w.descriptor = "Error" := by decide!
  have h4 : ∃ w, SETTINGS_UI[UI_ADVCD_BTN_LOG_FATAL]? = some w ∧
      w.widgetClass = xpWidgetClass_Button ∧ w.descriptor = "Fatal" := by decide!
  interval_cases L
  · obtain ⟨w, e1, e2, e3⟩ := h0
    exact ⟨_, w, fun _ => rfl, e1, e2, by rw [e3]; rfl⟩
  · obtain ⟨w, e1, e2, e3⟩ := h1
    exact ⟨_, w, fun _ => rfl, e1, e2, by rw [e3]; rfl⟩
  · obtain ⟨w, e1, e2, e3⟩ := h2
    exact ⟨_, w, fun _ => rfl, e1, e2, by rw [e3]; rfl⟩
  · obtain ⟨w, e1, e2, e3⟩ := h3
    exact ⟨_, w, fun _ => rfl, e1, e2, by rw [e3]; rfl⟩
  · obtain ⟨w, e1, e2, e3⟩ := h4
    exact ⟨_, w, fun _ => rfl, e1, e2, by rw [e3]; rfl⟩

/-- C9 at log level 3: the button at group index 3 is the one captioned `Error`. -/
theorem C9_log_level_group_order_witness :
    (3 : Nat) < 5 ∧
      ∃ (i : Nat) (w : TFWidgetCreate_t),
        (∀ widgetIds : Nat → XPWidgetID,
          (LTSettingsUI.Enable widgetIds).logLevelGrp[3]? = some (widgetIds i)) ∧
        SETTINGS_UI[i]? = some w ∧ w.widgetClass = xpWidgetClass_Button ∧
        logLevelNames[3]? = some w.descriptor :=
  ⟨by decide, C9_log_level_group_order 3 (by decide)⟩

/-! ## The handlers of `LTSettingsUI`: claims C6 and C10 -/

/-- C6: `LTSettingsUI::MsgHidden` saves the configuration file if and only if
the hidden widget is the settings main window itself, the widget of entry
`UI_MAIN_WND`; in both cases it then calls the base class handler for the
hidden widget and returns what that returns. -/
theorem C6_hidden_saves_iff_main_window (widgetIds : Nat → XPWidgetID) (tk : Toolkit)
    (hiddenWidget : XPWidgetID) :
    (UICall.SaveConfigFile ∈ ((LTSettingsUI.Enable widgetIds).MsgHidden tk hiddenWidget).2 ↔
      hiddenWidget = widgetIds UI_MAIN_WND) ∧
    ((LTSettingsUI.Enable widgetIds).MsgHidden tk hiddenWidget).2 =
      (if hiddenWidget = widgetIds UI_MAIN_WND then [UICall.SaveConfigFile] else []) ++
        [UICall.baseMsgHidden hiddenWidget] ∧
    ((LTSettingsUI.Enable widgetIds).MsgHidden tk hiddenWidget).1 =
      tk.baseMsgHidden hiddenWidget := by
  have e : (LTSettingsUI.Enable widgetIds).me = widgetIds UI_MAIN_WND := rfl
  refine ⟨?_, ?_, rfl⟩
  · simp only [LTSettingsUI.MsgHidden, e]
    by_cases h : hiddenWidget = widgetIds UI_MAIN_WND <;> simp [h]
  · simp only [LTSettingsUI.MsgHidden, e]

theorem tree_table :
    ∀ i, i < NUM_WIDGETS →
      ((parentIndex i = some NO_PARENT ↔ i = 0) ∧
       (i ≠ 0 → ∃ p : Nat, p < i ∧ parentIndex i = some (p : Int) ∧ isWindowAt p = true) ∧
       reachesMainWindow NUM_WIDGETS i = true) := by
  decide!

theorem isWindowAt_iff (p : Nat) :
    isWindowAt p = true ↔
      classAt p = some xpWidgetClass_MainWindow ∨ classAt p = some xpWidgetClass_SubWindow := by
  simp [isWindowAt]

/-- C14: `SETTINGS_UI` describes a well-formed tree: entry 0, the main window,
is the only entry with `NO_PARENT`; every other entry names as its parent an
index strictly smaller than its own position whose entry is the MainWindow or
a SubWindow; and every entry reaches entry 0 by following parents. -/
theorem C14_settings_ui_is_a_tree (i : Nat) (h : i < NUM_WIDGETS) :
    (parentIndex i = some NO_PARENT ↔ i = 0) ∧
    classAt 0 = some xpWidgetClass_MainWindow ∧
    (i ≠ 0 → ∃ p : Nat, p < i ∧ parentIndex i = some (p : Int) ∧
      (classAt p = some xpWidgetClass_MainWindow ∨ classAt p = some xpWidgetClass_SubWindow)) ∧
    reachesMainWindow NUM_WIDGETS i = true := by
  obtain ⟨h1, h2, h3⟩ := tree_table i h
  refine ⟨h1, by decide!, fun hi => ?_, h3⟩
  obtain ⟨p, hp, hpar, hw⟩ := h2 hi
  exact ⟨p, hp, hpar, (isWindowAt_iff p).mp hw⟩

/-- C14 at entry 17, the date-time text field: its parent is entry 14, the
historic sub-window, whose parent is entry 0. -/
theorem C14_settings_ui_is_a_tree_witness :
    17 < NUM_WIDGETS ∧ parentIndex 17 = some 14 ∧ parentIndex 14 = some 0 ∧
      ((parentIndex 17 = some NO_PARENT ↔ 17 = 0) ∧
      classAt 0 = some xpWidgetClass_MainWindow ∧
      (17 ≠ 0 → ∃ p : Nat, p < 17 ∧ parentIndex 17 = some (p : Int) ∧
        (classAt p = some xpWidgetClass_MainWindow ∨
          classAt p = some xpWidgetClass_SubWindow)) ∧
      reachesMainWindow NUM_WIDGETS 17 = true) :=
  ⟨by decide!, by decide!, by decide!, C14_settings_ui_is_a_tree 17 (by decide!)⟩

theorem csl_names_table :
    ∀ i, i < SETUI_CSL_PATHS →
      (UI_CSL_BTN_ENABLE_1 + SETUI_CSL_ELEMS_PER_PATH * i < NUM_WIDGETS ∧
       UI_CSL_TXT_PATH_1 + SETUI_CSL_ELEMS_PER_PATH * i < NUM_WIDGETS ∧
       UI_CSL_BTN_LOAD_1 + SETUI_CSL_ELEMS_PER_PATH * i < NUM_WIDGETS ∧
       namedIndexes[UI_CSL_BTN_ENABLE_1 + SETUI_CSL_ELEMS_PER_PATH * i]? =
         some (cslLineName "UI_CSL_BTN_ENABLE_" i) ∧
       namedIndexes[UI_CSL_TXT_PATH_1 + SETUI_CSL_ELEMS_PER_PATH * i]? =
         some (cslLineName "UI_CSL_TXT_PATH_" i) ∧
       namedIndexes[UI_CSL_BTN_LOAD_1 + SETUI_CSL_ELEMS_PER_PATH * i]? =
         some (cslLineName "UI_CSL_BTN_LOAD_" i)) := by
  decide!

theorem csl_enumerators_table :
    ∀ i, i < SETUI_CSL_PATHS →
      (enumerator (cslLineName "UI_CSL_BTN_ENABLE_" i) =
         UI_CSL_BTN_ENABLE_1 + SETUI_CSL_ELEMS_PER_PATH * i ∧
       enumerator (cslLineName "UI_CSL_TXT_PATH_" i) =
         UI_CSL_TXT_PATH_1 + SETUI_CSL_ELEMS_PER_PATH * i ∧
       enumerator (cslLineName "UI_CSL_BTN_LOAD_" i) =
         UI_CSL_BTN_LOAD_1 + SETUI_CSL_ELEMS_PER_PATH * i) := by
  decide!

theorem csl_entries_table :
    ∀ i, i < SETUI_CSL_PATHS →
      (SETTINGS_UI[UI_CSL_BTN_ENABLE_1 + SETUI_CSL_ELEMS_PER_PATH * i]?.map
         (fun w => (isCheckBox w, w.containerIndex)) = some (true, (UI_CSL_SUB_WND : Int)) ∧
       SETTINGS_UI[UI_CSL_TXT_PATH_1 + SETUI_CSL_ELEMS_PER_PATH * i]?.map
         (fun w => (w.widgetClass, w.containerIndex)) =
           some (xpWidgetClass_TextField, (UI_CSL_SUB_WND : Int)) ∧
       SETTINGS_UI[UI_CSL_BTN_LOAD_1 + SETUI_CSL_ELEMS_PER_PATH * i]?.map
         (fun w => (isPushButton w, w.descriptor, w.containerIndex)) =
           some (true, "Load", (UI_CSL_SUB_WND : Int))) := by
  decide!

/-- C15: with 7 CSL path lines of 3 elements each, for every line i from 0 to
6 the indexes `UI_CSL_BTN_ENABLE_1 + 3*i`, `UI_CSL_TXT_PATH_1 + 3*i` and
`UI_CSL_BTN_LOAD_1 + 3*i` lie inside `SETTINGS_UI`, are the values of the
named indexes `UI_CSL_BTN_ENABLE_(i+1)`, `UI_CSL_TXT_PATH_(i+1)` and
`UI_CSL_BTN_LOAD_(i+1)`, and their entries are a check-box Button, a TextField
and a push Button captioned `Load`, all children of the CSL sub-window. -/
theorem C15_csl_path_lines (i : Nat) (h : i < SETUI_CSL_PATHS) :
    (UI_CSL_BTN_ENABLE_1 + SETUI_CSL_ELEMS_PER_PATH * i < NUM_WIDGETS ∧
      UI_CSL_TXT_PATH_1 + SETUI_CSL_ELEMS_PER_PATH * i < NUM_WIDGETS ∧
      UI_CSL_BTN_LOAD_1 + SETUI_CSL_ELEMS_PER_PATH * i < NUM_WIDGETS) ∧
    (cslLineName "UI_CSL_BTN_ENABLE_" i ∈ namedIndexes ∧
      cslLineName "UI_CSL_TXT_PATH_" i ∈ namedIndexes ∧
      cslLineName "UI_CSL_BTN_LOAD_" i ∈ namedIndexes) ∧
    (enumerator (cslLineName "UI_CSL_BTN_ENABLE_" i) =
        UI_CSL_BTN_ENABLE_1 + SETUI_CSL_ELEMS_PER_PATH * i ∧
      enumerator (cslLineName "UI_CSL_TXT_PATH_" i) =
        UI_CSL_TXT_PATH_1 + SETUI_CSL_ELEMS_PER_PATH * i ∧
      enumerator (cslLineName "UI_CSL_BTN_LOAD_" i) =
        UI_CSL_BTN_LOAD_1 + SETUI_CSL_ELEMS_PER_PATH * i) ∧
    (∃ we wt wl : TFWidgetCreate_t,
      SETTINGS_UI[UI_CSL_BTN_ENABLE_1 + SETUI_CSL_ELEMS_PER_PATH * i]? = some we ∧
      SETTINGS_UI[UI_CSL_TXT_PATH_1 + SETUI_CSL_ELEMS_PER_PATH * i]? = some wt ∧
      SETTINGS_UI[UI_CSL_BTN_LOAD_1 + SETUI_CSL_ELEMS_PER_PATH * i]? = some wl ∧
      isCheckBox we = true ∧ wt.widgetClass = xpWidgetClass_TextField ∧
      isPushButton wl = true ∧ wl.descriptor = "Load" ∧
      we.containerIndex = UI_CSL_SUB_WND ∧ wt.containerIndex = UI_CSL_SUB_WND ∧
      wl.containerIndex = UI_CSL_SUB_WND) ∧
    classAt UI_CSL_SUB_WND = some xpWidgetClass_SubWindow := by
  obtain ⟨b1, b2, b3, n1, n2, n3⟩ := csl_names_table i h
  obtain ⟨e1, e2, e3⟩ := csl_enumerators_table i h
  obtain ⟨t1, t2, t3⟩ := csl_entries_table i h
  obtain ⟨we, hwe, hwe'⟩ := Option.map_eq_some'.mp t1
  obtain ⟨wt, hwt, hwt'⟩ := Option.map_eq_some'.mp t2
  obtain ⟨wl, hwl, hwl'⟩ := Option.map_eq_some'.mp t3
  simp only [Prod.mk.injEq] at hwe' hwt' hwl'
  refine ⟨⟨b1, b2, b3⟩, ⟨List.mem_iff_getElem?.mpr ⟨_, n1⟩, List.mem_iff_getElem?.mpr ⟨_, n2⟩,
    List.mem_iff_getElem?.mpr ⟨_, n3⟩⟩, ⟨e1, e2, e3⟩,
    ⟨we, wt, wl, hwe, hwt, hwl, hwe'.1, hwt'.1, hwl'.1, hwl'.2.1, hwe'.2, hwt'.2, hwl'.2.2⟩,
    by decide!⟩

/-- C15 at line 2: the indexes 80, 81 and 82 are `UI_CSL_BTN_ENABLE_3`,
`UI_CSL_TXT_PATH_3` and `UI_CSL_BTN_LOAD_3`. -/
theorem C15_csl_path_lines_witness :
    2 < SETUI_CSL_PATHS ∧
      cslLineName "UI_CSL_BTN_ENABLE_" 2 = "UI_CSL_BTN_ENABLE_3" ∧
      enumerator (cslLineName "UI_CSL_BTN_ENABLE_" 2) = 80 ∧
      enumerator (cslLineName "UI_CSL_TXT_PATH_" 2) = 81 ∧
      enumerator (cslLineName "UI_CSL_BTN_LOAD_" 2) = 82 :=
  ⟨by decide, by decide!,
    (C15_csl_path_lines 2 (by decide)).2.2.1.1.trans (by decide!),
    (C15_csl_path_lines 2 (by decide)).2.2.1.2.1.trans (by decide!),
    (C15_csl_path_lines 2 (by decide)).2.2.1.2.2.trans (by decide!)⟩

/-! ## The values of the indexes the handlers use -/

@[simp] theorem UI_BTN_BASICS_eq : UI_BTN_BASICS = 1 := by decide!

@[simp] theorem UI_BTN_AC_LABELS_eq : UI_BTN_AC_LABELS = 2 := by decide!

@[simp] theorem UI_BTN_ADVANCED_eq : UI_BTN_ADVANCED = 3 := by decide!

@[simp] theorem UI_BTN_CSL_eq : UI_BTN_CSL = 4 := by decide!

@[simp] theorem UI_BASICS_LIVE_SUB_WND_eq : UI_BASICS_LIVE_SUB_WND = 5 := by decide!

@[simp] theorem UI_BASICS_HISTORIC_SUB_WND_eq : UI_BASICS_HISTORIC_SUB_WND = 14 := by decide!

@[simp] theorem UI_LABELS_SUB_WND_eq : UI_LABELS_SUB_WND = 21 := by decide!

@[simp] theorem UI_ADVCD_SUB_WND_eq : UI_ADVCD_SUB_WND = 46 := by decide!

@[simp] theorem UI_CSL_SUB_WND_eq : UI_CSL_SUB_WND = 72 := by decide!

@[simp] theorem UI_LABELS_BTN_TYPE_eq : UI_LABELS_BTN_TYPE = 23 := by decide!

@[simp] theorem UI_LABELS_BTN_AC_ID_eq : UI_LABELS_BTN_AC_ID = 24 := by decide!

@[simp] theorem UI_LABELS_BTN_TRANSP_eq : UI_LABELS_BTN_TRANSP = 25 := by decide!

@[simp] theorem UI_LABELS_BTN_REG_eq : UI_LABELS_BTN_REG = 26 := by decide!

@[simp] theorem UI_LABELS_BTN_OP_eq : UI_LABELS_BTN_OP = 27 := by decide!

@[simp] theorem UI_LABELS_BTN_CALL_SIGN_eq : UI_LABELS_BTN_CALL_SIGN = 28 := by decide!

@[simp] theorem UI_LABELS_BTN_FLIGHT_NO_eq : UI_LABELS_BTN_FLIGHT_NO = 29 := by decide!

@[simp] theorem UI_LABELS_BTN_ROUTE_eq : UI_LABELS_BTN_ROUTE = 30 := by decide!

@[simp] theorem UI_LABELS_BTN_PHASE_eq : UI_LABELS_BTN_PHASE = 32 := by decide!

@[simp] theorem UI_LABELS_BTN_HEADING_eq : UI_LABELS_BTN_HEADING = 33 := by decide!

@[simp] theorem UI_LABELS_BTN_ALT_eq : UI_LABELS_BTN_ALT = 34 := by decide!

@[simp] theorem UI_LABELS_BTN_HEIGHT_eq : UI_LABELS_BTN_HEIGHT = 35 := by decide!

@[simp] theorem UI_LABELS_BTN_SPEED_eq : UI_LABELS_BTN_SPEED = 36 := by decide!

@[simp] theorem UI_LABELS_BTN_VSI_eq : UI_LABELS_BTN_VSI = 37 := by decide!

@[simp] theorem UI_LABELS_BTN_DYNAMIC_eq : UI_LABELS_BTN_DYNAMIC = 39 := by decide!

@[simp] theorem UI_LABELS_BTN_FIXED_eq : UI_LABELS_BTN_FIXED = 40 := by decide!

@[simp] theorem UI_LABELS_BTN_YELLOW_eq : UI_LABELS_BTN_YELLOW = 42 := by decide!

@[simp] theorem UI_LABELS_BTN_RED_eq : UI_LABELS_BTN_RED = 43 := by decide!

@[simp] theorem UI_LABELS_BTN_GREEN_eq : UI_LABELS_BTN_GREEN = 44 := by decide!

@[simp] theorem UI_LABELS_BTN_BLUE_eq : UI_LABELS_BTN_BLUE = 45 := by decide!

@[simp] theorem UI_ADVCD_BTN_LOG_FATAL_eq : UI_ADVCD_BTN_LOG_FATAL = 48 := by decide!

@[simp] theorem UI_ADVCD_BTN_LOG_ERROR_eq : UI_ADVCD_BTN_LOG_ERROR = 49 := by decide!

@[simp] theorem UI_ADVCD_BTN_LOG_WARNING_eq : UI_ADVCD_BTN_LOG_WARNING = 50 := by decide!

@[simp] theorem UI_ADVCD_BTN_LOG_INFO_eq : UI_ADVCD_BTN_LOG_INFO = 51 := by decide!

@[simp] theorem UI_ADVCD_BTN_LOG_DEBUG_eq : UI_ADVCD_BTN_LOG_DEBUG = 52 := by decide!

@[simp] theorem UI_ADVCD_TXT_FILTER_eq : UI_ADVCD_TXT_FILTER = 68 := by decide!

@[simp] theorem UI_CSL_BTN_ENABLE_1_eq : UI_CSL_BTN_ENABLE_1 = 74 := by decide!

@[simp] theorem UI_CSL_TXT_PATH_1_eq : UI_CSL_TXT_PATH_1 = 75 := by decide!

@[simp] theorem UI_CSL_BTN_LOAD_1_eq : UI_CSL_BTN_LOAD_1 = 76 := by decide!

@[simp] theorem UI_CSL_TXT_DEFAULT_AC_TYPE_eq : UI_CSL_TXT_DEFAULT_AC_TYPE = 96 := by decide!

@[simp] theorem UI_CSL_TXT_GROUND_VEHICLE_TYPE_eq : UI_CSL_TXT_GROUND_VEHICLE_TYPE = 98 := by decide!

@[simp] theorem UI_BASICS_TXT_DATETIME_eq : UI_BASICS_TXT_DATETIME = 17 := by decide!

@[simp] theorem SETUI_CSL_PATHS_eq : SETUI_CSL_PATHS = 7 := rfl

@[simp] theorem SETUI_CSL_ELEMS_PER_PATH_eq : SETUI_CSL_ELEMS_PER_PATH = 3 := rfl

theorem NUM_WIDGETS_eq : NUM_WIDGETS = 99 := by decide!

theorem range_seven : List.range 7 = [0, 1, 2, 3, 4, 5, 6] := by decide

/-- Distinct entries have distinct widgets: ids are equal only for equal indexes. -/
theorem widgetIds_eq_iff {widgetIds : Nat → XPWidgetID}
    (hinj : ∀ i j, i < NUM_WIDGETS → j < NUM_WIDGETS → widgetIds i = widgetIds j → i = j)
    (a b : Nat) (ha : a < 99) (hb : b < 99) : widgetIds a = widgetIds b ↔ a = b :=
  ⟨fun h => hinj a b (by rw [NUM_WIDGETS_eq]; exact ha) (by rw [NUM_WIDGETS_eq]; exact hb) h,
    fun h => by rw [h]⟩

/-! ## The handlers of `LTSettingsUI`: claims C11 to C13 and C16 -/

/-- C16: for a button-state-change message from a button of the log-level
radio group (the widgets being distinct), `LTSettingsUI::MsgButtonStateChanged`
calls the base class handler and then, when `bNowChecked` is true, sets the
log level to the checked index of the group and returns true; when
`bNowChecked` is false it makes no further call, so the log level is as the
base class handler leaves it, and returns the result of the base class
handler. -/
theorem C16_log_level_button (widgetIds : Nat → XPWidgetID)
    (hinj : ∀ i j, i < NUM_WIDGETS → j < NUM_WIDGETS → widgetIds i = widgetIds j → i = j)
    (tk : Toolkit) (buttonWidget : XPWidgetID)
    (hgrp : buttonWidget ∈ (LTSettingsUI.Enable widgetIds).logLevelGrp) :
    (LTSettingsUI.Enable widgetIds).MsgButtonStateChanged tk buttonWidget true =
      (true, [UICall.baseMsgButtonStateChanged buttonWidget true,
        UICall.SetLogLevel tk.logLevelCheckedIndex]) ∧
    (LTSettingsUI.Enable widgetIds).MsgButtonStateChanged tk buttonWidget false =
      (tk.baseMsgButtonStateChanged buttonWidget false,
        [UICall.baseMsgButtonStateChanged buttonWidget false]) := by
  have key := widgetIds_eq_iff hinj
  simp only [LTSettingsUI.Enable, List.mem_cons, List.mem_singleton, List.not_mem_nil,
    or_false, UI_ADVCD_BTN_LOG_DEBUG_eq, UI_ADVCD_BTN_LOG_INFO_eq, UI_ADVCD_BTN_LOG_WARNING_eq,
    UI_ADVCD_BTN_LOG_ERROR_eq, UI_ADVCD_BTN_LOG_FATAL_eq] at hgrp
  rcases hgrp with rfl | rfl | rfl | rfl | rfl <;>
    constructor <;>
    simp [LTSettingsUI.MsgButtonStateChanged, LTSettingsUI.Enable, labelButtons, key,
      range_seven]

/-- C16 at the `Debug` button, widget 152 when the widget of entry `i` has the
id `i + 100`, the group's checked index being 0. -/
theorem C16_log_level_button_witness :
    (∀ i j, i < NUM_WIDGETS → j < NUM_WIDGETS → i + 100 = j + 100 → i = j) ∧
      152 ∈ (LTSettingsUI.Enable (fun i => i + 100)).logLevelGrp ∧
      (LTSettingsUI.Enable (fun i => i + 100)).MsgButtonStateChanged
          ⟨fun _ => false, fun _ _ => false, fun _ => 0, fun _ => "", 0⟩ 152 true =
        (true, [UICall.baseMsgButtonStateChanged 152 true, UICall.SetLogLevel 0]) :=
  ⟨fun _ _ _ _ h => by omega, by decide!,
    (C16_log_level_button (fun i => i + 100) (fun _ _ _ _ h => Nat.add_right_cancel h)
      ⟨fun _ => false, fun _ _ => false, fun _ => 0, fun _ => "", 0⟩ 152 (by decide!)).1⟩

/-- C11: for every CSL path line i from 0 to 6 (the widgets being distinct), a
text-changed message from the path text field of line i and a state-change
message from the enable check box of line i each store exactly line i: the
one call to the configuration store passes index i, the current state of
check box i and the current text of text field i; the handler returns true. -/
theorem C11_csl_line_is_stored (widgetIds : Nat → XPWidgetID)
    (hinj : ∀ i j, i < NUM_WIDGETS → j < NUM_WIDGETS → widgetIds i = widgetIds j → i = j)
    (tk : ToolkitEx) {D : Type} (dr : DataRefsTypes D) (d : D) (i : Nat)
    (hi : i < SETUI_CSL_PATHS) (text : String) (bNowChecked : Bool) :
    (LTSettingsUI.Enable widgetIds).MsgTextFieldChanged tk dr
        (widgetIds (UI_CSL_TXT_PATH_1 + i * SETUI_CSL_ELEMS_PER_PATH)) text d =
      (true,
        [UICall.SaveCSLPath i
          (tk.buttonState (widgetIds (UI_CSL_BTN_ENABLE_1 + i * SETUI_CSL_ELEMS_PER_PATH)) != 0)
          (tk.descriptor (widgetIds (UI_CSL_TXT_PATH_1 + i * SETUI_CSL_ELEMS_PER_PATH)))],
        d) ∧
    (LTSettingsUI.Enable widgetIds).MsgButtonStateChanged tk.toToolkit
        (widgetIds (UI_CSL_BTN_ENABLE_1 + i * SETUI_CSL_ELEMS_PER_PATH)) bNowChecked =
      (true,
        [UICall.baseMsgButtonStateChanged
          (widgetIds (UI_CSL_BTN_ENABLE_1 + i * SETUI_CSL_ELEMS_PER_PATH)) bNowChecked,
         UICall.SaveCSLPath i
          (tk.buttonState (widgetIds (UI_CSL_BTN_ENABLE_1 + i * SETUI_CSL_ELEMS_PER_PATH)) != 0)
          (tk.descriptor (widgetIds (UI_CSL_TXT_PATH_1 + i * SETUI_CSL_ELEMS_PER_PATH)))]) := by
  have key := widgetIds_eq_iff hinj
  simp only [SETUI_CSL_PATHS_eq] at hi
  interval_cases i <;>
    constructor <;>
    simp [LTSettingsUI.MsgTextFieldChanged, LTSettingsUI.MsgButtonStateChanged,
      LTSettingsUI.SaveCSLPath, LTSettingsUI.Enable, labelButtons, key, range_seven]

/-- C11 at line 2, the widget of entry `i` having the id `i + 100`: a text
change of field 181 stores line 2 with the state of check box 180 and the
text of field 181. -/
theorem C11_csl_line_is_stored_witness :
    (∀ i j, i < NUM_WIDGETS → j < NUM_WIDGETS → i + 100 = j + 100 → i = j) ∧
      2 < SETUI_CSL_PATHS ∧
      (LTSettingsUI.Enable (fun i => i + 100)).MsgTextFieldChanged
          ⟨⟨fun _ => false, fun _ _ => false, fun w => if w = 180 then 1 else 0,
            fun w => if w = 181 then "Resources/CSL" else "", 0⟩,
            fun _ _ => false, fun _ => false, false, 0⟩
          (⟨fun _ u => (true, u), fun _ => "A320", fun _ u => (true, u), fun _ => "ZZZC"⟩ :
            DataRefsTypes Unit)
          181 "Resources/CSL" () =
        (true, [UICall.SaveCSLPath 2 true "Resources/CSL"], ()) :=
  ⟨fun _ _ _ _ h => by omega, by decide,
    ((C11_csl_line_is_stored (fun i => i + 100) (fun _ _ _ _ h => Nat.add_right_cancel h)
      ⟨⟨fun _ => false, fun _ _ => false, fun w => if w = 180 then 1 else 0,
        fun w => if w = 181 then "Resources/CSL" else "", 0⟩,
        fun _ _ => false, fun _ => false, false, 0⟩
      (⟨fun _ u => (true, u), fun _ => "A320", fun _ u => (true, u), fun _ => "ZZZC"⟩ :
        DataRefsTypes Unit)
      () 2 (by decide) "Resources/CSL" true).1).trans (by decide!)⟩

/-- C12: `LTSettingsUI::MsgPushButtonPressed` (the widgets being distinct)
sets the label colour to `COLOR_YELLOW`, `COLOR_RED`, `COLOR_GREEN` or
`COLOR_BLUE` for the Yellow, Red, Green or Blue preset button; for the `Load`
button of CSL line i (0 to 6) it first saves path i and then loads CSL
package i; in these cases it returns true. For every other widget it only
calls the base class handler and returns its result. -/
theorem C12_push_buttons (widgetIds : Nat → XPWidgetID)
    (hinj : ∀ i j, i < NUM_WIDGETS → j < NUM_WIDGETS → widgetIds i = widgetIds j → i = j)
    (tk : ToolkitEx) (col : Colors) :
    (LTSettingsUI.Enable widgetIds).MsgPushButtonPressed tk col
        (widgetIds UI_LABELS_BTN_YELLOW) = (true, [UICall.intLabelColorSet col.COLOR_YELLOW]) ∧
    (LTSettingsUI.Enable widgetIds).MsgPushButtonPressed tk col
        (widgetIds UI_LABELS_BTN_RED) = (true, [UICall.intLabelColorSet col.COLOR_RED]) ∧
    (LTSettingsUI.Enable widgetIds).MsgPushButtonPressed tk col
        (widgetIds UI_LABELS_BTN_GREEN) = (true, [UICall.intLabelColorSet col.COLOR_GREEN]) ∧
    (LTSettingsUI.Enable widgetIds).MsgPushButtonPressed tk col
        (widgetIds UI_LABELS_BTN_BLUE) = (true, [UICall.intLabelColorSet col.COLOR_BLUE]) ∧
    (∀ i, i < SETUI_CSL_PATHS →
      (LTSettingsUI.Enable widgetIds).MsgPushButtonPressed tk col
          (widgetIds (UI_CSL_BTN_LOAD_1 + i * SETUI_CSL_ELEMS_PER_PATH)) =
        (true,
          [UICall.SaveCSLPath i
            (tk.buttonState
              (widgetIds (UI_CSL_BTN_ENABLE_1 + i * SETUI_CSL_ELEMS_PER_PATH)) != 0)
            (tk.descriptor (widgetIds (UI_CSL_TXT_PATH_1 + i * SETUI_CSL_ELEMS_PER_PATH))),
           UICall.LoadCSLPackage i])) ∧
    (∀ w : XPWidgetID,
      w ≠ widgetIds UI_LABELS_BTN_YELLOW → w ≠ widgetIds UI_LABELS_BTN_RED →
      w ≠ widgetIds UI_LABELS_BTN_GREEN → w ≠ widgetIds UI_LABELS_BTN_BLUE →
      (∀ i, i < SETUI_CSL_PATHS →
        w ≠ widgetIds (UI_CSL_BTN_LOAD_1 + i * SETUI_CSL_ELEMS_PER_PATH)) →
      (LTSettingsUI.Enable widgetIds).MsgPushButtonPressed tk col w =
        (tk.baseMsgPushButtonPressed w, [UICall.baseMsgPushButtonPressed w])) := by
  have key := widgetIds_eq_iff hinj
  refine ⟨?_, ?_, ?_, ?_, ?_, ?_⟩
  · simp [LTSettingsUI.MsgPushButtonPressed, LTSettingsUI.Enable]
  · simp [LTSettingsUI.MsgPushButtonPressed, LTSettingsUI.Enable, key]
  · simp [LTSettingsUI.MsgPushButtonPressed, LTSettingsUI.Enable, key]
  · simp [LTSettingsUI.MsgPushButtonPressed, LTSettingsUI.Enable, key]
  · intro i hi
    simp only [SETUI_CSL_PATHS_eq] at hi
    interval_cases i <;>
      simp [LTSettingsUI.MsgPushButtonPressed, LTSettingsUI.SaveCSLPath, LTSettingsUI.Enable,
        key, range_seven]
  · intro w h1 h2 h3 h4 h5
    have g0 := h5 0 (by decide)
    have g1 := h5 1 (by decide)
    have g2 := h5 2 (by decide)
    have g3 := h5 3 (by decide)
    have g4 := h5 4 (by decide)
    have g5 := h5 5 (by decide)
    have g6 := h5 6 (by decide)
    simp only [UI_LABELS_BTN_YELLOW_eq, UI_LABELS_BTN_RED_eq, UI_LABELS_BTN_GREEN_eq,
      UI_LABELS_BTN_BLUE_eq, ne_eq] at h1 h2 h3 h4
    simp only [UI_CSL_BTN_LOAD_1_eq, SETUI_CSL_ELEMS_PER_PATH_eq, ne_eq] at g0 g1 g2 g3 g4 g5 g6
    simp [LTSettingsUI.MsgPushButtonPressed, LTSettingsUI.Enable, range_seven,
      Ne.symm h1, Ne.symm h2, Ne.symm h3, Ne.symm h4, Ne.symm g0, Ne.symm g1, Ne.symm g2,
      Ne.symm g3, Ne.symm g4, Ne.symm g5, Ne.symm g6]

/-- C12 at the `Load` button of line 1, widget 179 when the widget of entry
`i` has the id `i + 100`: path 1 is saved, then package 1 is loaded. -/
theorem C12_push_buttons_witness :
    (∀ i j, i < NUM_WIDGETS → j < NUM_WIDGETS → i + 100 = j + 100 → i = j) ∧
      1 < SETUI_CSL_PATHS ∧
      (LTSettingsUI.Enable (fun i => i + 100)).MsgPushButtonPressed
          ⟨⟨fun _ => false, fun _ _ => false, fun _ => 0, fun _ => "", 0⟩,
            fun _ _ => false, fun _ => false, false, 0⟩
          ⟨1, 2, 3, 4⟩ 179 =
        (true, [UICall.SaveCSLPath 1 false "", UICall.LoadCSLPackage 1]) :=
  ⟨fun _ _ _ _ h => by omega, by decide,
    ((C12_push_buttons (fun i => i + 100) (fun _ _ _ _ h => Nat.add_right_cancel h)
      ⟨⟨fun _ => false, fun _ _ => false, fun _ => 0, fun _ => "", 0⟩,
        fun _ _ => false, fun _ => false, false, 0⟩
      ⟨1, 2, 3, 4⟩).2.2.2.2.1 1 (by decide)).trans (by decide!)⟩

/-- C13: for a text entered in the `Default a/c type` field, resp. the
`Ground vehicle type` field (the widgets being distinct),
`LTSettingsUI::MsgTextFieldChanged` tries to set the configured type to that
text and returns true. Whatever the setter does, the handler leaves the text
of the field alone when the setter accepts, and sets it to the type the
configuration then holds when the setter refuses. With the setter of the
configuration, which refuses a text that fails validation and keeps the
type: if validation fails the configured type is unchanged and the text of
the field is set to it, and if it succeeds the text becomes the configured
type and the text of the field is not touched. -/
theorem C13_default_types (widgetIds : Nat → XPWidgetID)
    (hinj : ∀ i j, i < NUM_WIDGETS → j < NUM_WIDGETS → widgetIds i = widgetIds j → i = j)
    (tk : ToolkitEx) {D : Type} (dr : DataRefsTypes D) (d : D) (text : String)
    (validAc validCar : String → Bool) (s : DefaultTypes) :
    (LTSettingsUI.Enable widgetIds).MsgTextFieldChanged tk dr
        (widgetIds UI_CSL_TXT_DEFAULT_AC_TYPE) text d =
      (true,
        (if (dr.SetDefaultAcIcaoType text d).1 = true then [UICall.SetDefaultAcIcaoType text]
         else [UICall.SetDefaultAcIcaoType text,
           UICall.SetDescriptor (widgetIds UI_CSL_TXT_DEFAULT_AC_TYPE)
             (dr.GetDefaultAcIcaoType (dr.SetDefaultAcIcaoType text d).2)]),
        (dr.SetDefaultAcIcaoType text d).2) ∧
    (LTSettingsUI.Enable widgetIds).MsgTextFieldChanged tk dr
        (widgetIds UI_CSL_TXT_GROUND_VEHICLE_TYPE) text d =
      (true,
        (if (dr.SetDefaultCarIcaoType text d).1 = true then [UICall.SetDefaultCarIcaoType text]
         else [UICall.SetDefaultCarIcaoType text,
           UICall.SetDescriptor (widgetIds UI_CSL_TXT_GROUND_VEHICLE_TYPE)
             (dr.GetDefaultCarIcaoType (dr.SetDefaultCarIcaoType text d).2)]),
        (dr.SetDefaultCarIcaoType text d).2) ∧
    (LTSettingsUI.Enable widgetIds).MsgTextFieldChanged tk (defaultTypesOf validAc validCar)
        (widgetIds UI_CSL_TXT_DEFAULT_AC_TYPE) text s =
      (if validAc text = true then
        (true, [UICall.SetDefaultAcIcaoType text],
          ⟨text, s.sDefaultCarIcaoType⟩)
       else
        (true, [UICall.SetDefaultAcIcaoType text,
          UICall.SetDescriptor (widgetIds UI_CSL_TXT_DEFAULT_AC_TYPE) s.sDefaultAcIcaoType],
          s)) ∧
    (LTSettingsUI.Enable widgetIds).MsgTextFieldChanged tk (defaultTypesOf validAc validCar)
        (widgetIds UI_CSL_TXT_GROUND_VEHICLE_TYPE) text s =
      (if validCar text = true then
        (true, [UICall.SetDefaultCarIcaoType text],
          ⟨s.sDefaultAcIcaoType, text⟩)
       else
        (true, [UICall.SetDefaultCarIcaoType text,
          UICall.SetDescriptor (widgetIds UI_CSL_TXT_GROUND_VEHICLE_TYPE) s.sDefaultCarIcaoType],
          s)) := by
  have key := widgetIds_eq_iff hinj
  have e1 : ∀ (E : Type) (dr : DataRefsTypes E) (d : E),
      (LTSettingsUI.Enable widgetIds).MsgTextFieldChanged tk dr
        (widgetIds UI_CSL_TXT_DEFAULT_AC_TYPE) text d =
      (true,
        (if (dr.SetDefaultAcIcaoType text d).1 = true then [UICall.SetDefaultAcIcaoType text]
         else [UICall.SetDefaultAcIcaoType text,
           UICall.SetDescriptor (widgetIds UI_CSL_TXT_DEFAULT_AC_TYPE)
             (dr.GetDefaultAcIcaoType (dr.SetDefaultAcIcaoType text d).2)]),
        (dr.SetDefaultAcIcaoType text d).2) := by
    intro E dr d
    by_cases h : (dr.SetDefaultAcIcaoType text d).1 = true <;>
      simp [LTSettingsUI.MsgTextFieldChanged, LTSettingsUI.Enable, key, range_seven, h]
  have e2 : ∀ (E : Type) (dr : DataRefsTypes E) (d : E),
      (LTSettingsUI.Enable widgetIds).MsgTextFieldChanged tk dr
        (widgetIds UI_CSL_TXT_GROUND_VEHICLE_TYPE) text d =
      (true,
        (if (dr.SetDefaultCarIcaoType text d).1 = true then [UICall.SetDefaultCarIcaoType text]
         else [UICall.SetDefaultCarIcaoType text,
           UICall.SetDescriptor (widgetIds UI_CSL_TXT_GROUND_VEHICLE_TYPE)
             (dr.GetDefaultCarIcaoType (dr.SetDefaultCarIcaoType text d).2)]),
        (dr.SetDefaultCarIcaoType text d).2) := by
    intro E dr d
    by_cases h : (dr.SetDefaultCarIcaoType text d).1 = true <;>
      simp [LTSettingsUI.MsgTextFieldChanged, LTSettingsUI.Enable, key, range_seven, h]
  refine ⟨e1 D dr d, e2 D dr d, ?_, ?_⟩
  · rw [e1]
    by_cases h : validAc text = true <;> simp [defaultTypesOf, h]
  · rw [e2]
    by_cases h : validCar text = true <;> simp [defaultTypesOf, h]

/-- C13 at the text `XXXX` entered in the `Default a/c type` field, widget 196
when the widget of entry `i` has the id `i + 100`, the configured types being
`B738` and `ZZZC` and only `A320` being a valid a/c type: the types stay as
they are and the text of the field is set to `B738`. -/
theorem C13_default_types_witness :
    (∀ i j, i < NUM_WIDGETS → j < NUM_WIDGETS → i + 100 = j + 100 → i = j) ∧
      (LTSettingsUI.Enable (fun i => i + 100)).MsgTextFieldChanged
          ⟨⟨fun _ => false, fun _ _ => false, fun _ => 0, fun _ => "", 0⟩,
            fun _ _ => false, fun _ => false, false, 0⟩
          (defaultTypesOf (fun t => t == "A320") (fun t => t == "ZZZC"))
          196 "XXXX" ⟨"B738", "ZZZC"⟩ =
        (true, [UICall.SetDefaultAcIcaoType "XXXX", UICall.SetDescriptor 196 "B738"],
          ⟨"B738", "ZZZC"⟩) :=
  ⟨fun _ _ _ _ h => by omega,
    ((C13_default_types (fun i => i + 100) (fun _ _ _ _ h => Nat.add_right_cancel h)
      ⟨⟨fun _ => false, fun _ _ => false, fun _ => 0, fun _ => "", 0⟩,
        fun _ _ => false, fun _ => false, false, 0⟩
      (defaultTypesOf (fun t => t == "A320") (fun t => t == "ZZZC")) ⟨"B738", "ZZZC"⟩ "XXXX"
      (fun t => t == "A320") (fun t => t == "ZZZC") ⟨"B738", "ZZZC"⟩).2.2.1).trans
      (by decide!)⟩

end LiveTraffic
